import Mathlib

/-!
Verification development for the DingusPPC PowerPC interpreter core:
a shallow embedding of the floating-point opcode handlers
(src/cpu/ppc/ppcfpopcodes.cpp), the MacIO interrupt-controller register
layout (src/devices/ioctrl/macio.h) and the SCSI hard-disk seek/rewind
operations (scsi_hd.cpp), together with theorems checking the
natural-language specification against this embedding.

Machine integers are modelled as `Nat` with explicit masking / `% 2^32`
where the C++ code works on `uint32_t`/`uint64_t`.  IEEE-754 doubles are
modelled by decoding the 64-bit register pattern into an exact value
(`Fp`, with rationals for finite values); the host FPU's arithmetic
(additions, fused multiply-adds, reciprocal estimates, float rounding)
is passed to each handler as an explicit bit-level function parameter,
so every theorem quantifies over the host arithmetic.
-/

/-- FPSCR status bit FX (bit 31), from the FPSCR layout used by the
interpreter (declared in ppcemu.h; the numeric masks also appear
directly in ppcfpopcodes.cpp, e.g. `update_fex` and `ppc_mtfsb0`). -/
def FPSCR_FX : Nat := 0x80000000

/-- FPSCR enabled-exception summary bit FEX (bit 30). -/
def FPSCR_FEX : Nat := 0x40000000

/-- FPSCR invalid-operation summary bit VX (bit 29). -/
def FPSCR_VX : Nat := 0x20000000

/-- FPSCR overflow exception bit OX (bit 28). -/
def FPSCR_OX : Nat := 0x10000000

/-- FPSCR underflow exception bit UX (bit 27). -/
def FPSCR_UX : Nat := 0x08000000

/-- FPSCR zero-divide exception bit ZX (bit 26). -/
def FPSCR_ZX : Nat := 0x04000000

/-- FPSCR inexact exception bit XX (bit 25). -/
def FPSCR_XX : Nat := 0x02000000

/-- FPSCR signalling-NaN invalid-operation cause bit VXSNAN (bit 24). -/
def FPSCR_VXSNAN : Nat := 0x01000000

/-- FPSCR infinity-minus-infinity cause bit VXISI (bit 23). -/
def FPSCR_VXISI : Nat := 0x00800000

/-- FPSCR infinity-divided-by-infinity cause bit VXIDI (bit 22). -/
def FPSCR_VXIDI : Nat := 0x00400000

/-- FPSCR zero-divided-by-zero cause bit VXZDZ (bit 21). -/
def FPSCR_VXZDZ : Nat := 0x00200000

/-- FPSCR invalid-compare cause bit VXVC (bit 19). -/
def FPSCR_VXVC : Nat := 0x00080000

/-- FPSCR fraction-rounded bit FR (bit 18). -/
def FPSCR_FR : Nat := 0x00040000

/-- FPSCR fraction-inexact bit FI (bit 17). -/
def FPSCR_FI : Nat := 0x00020000

/-- FPSCR square-root-invalid cause bit VXSQRT (bit 9). -/
def FPSCR_VXSQRT : Nat := 0x00000200

/-- FPSCR integer-convert-invalid cause bit VXCVI (bit 8). -/
def FPSCR_VXCVI : Nat := 0x00000100

/-- FPSCR invalid-operation exception enable bit VE (bit 7). -/
def FPSCR_VE : Nat := 0x00000080

/-- FPSCR zero-divide exception bit ZX's enable ZE is bit 4; the five
enables VE..XE occupy bits 7..3, 22 positions below VX..XX. -/
def FPSCR_ZE : Nat := 0x00000010

/-- FPSCR rounding-mode field mask RN (bits 1..0). -/
def FPSCR_RN_MASK : Nat := 0x3

/-- FPSCR condition-code field mask FPCC (bits 15..12), FPSCR::FPCC_MASK. -/
def FPSCR_FPCC_MASK : Nat := 0x0000F000

/-- FPCC bit set for a negative result (FL, bit 15): FPCC_NEG. -/
def FPCC_NEG : Nat := 0x8000

/-- FPCC bit set for a positive result (FG, bit 14): FPCC_POS. -/
def FPCC_POS : Nat := 0x4000

/-- FPCC bit set for a zero result (FE, bit 13): FPCC_ZERO. -/
def FPCC_ZERO : Nat := 0x2000

/-- FPCC bit set for an unordered/NaN result (FU, bit 12): FPCC_FUNAN. -/
def FPCC_FUNAN : Nat := 0x1000

/-- FPSCR result-class descriptor bit C (bit 16): FPRCD. -/
def FPRCD : Nat := 0x10000

/-- CR bit mask CRx_bit::CR_LT within a left-aligned nibble. -/
def CR_LT : Nat := 0x80000000

/-- CR bit mask CRx_bit::CR_GT. -/
def CR_GT : Nat := 0x40000000

/-- CR bit mask CRx_bit::CR_EQ. -/
def CR_EQ : Nat := 0x20000000

/-- CR bit mask CRx_bit::CR_SO. -/
def CR_SO : Nat := 0x10000000

/-- CR1 field mask CR_select::CR1_field. -/
def CR1_field : Nat := 0x0F000000

/-- Bitwise complement on 32-bit words: `~m` of the C++ code applied to a
`uint32_t` mask `m`. -/
def compl32 (m : Nat) : Nat := 0xFFFFFFFF ^^^ m

/-- Left shift performed in `uint32_t` arithmetic (wraps modulo 2^32). -/
def shl32 (x k : Nat) : Nat := (x <<< k) % 2 ^ 32

/-- Sign extension of a 16-bit immediate to a 32-bit word, the
`int32_t(int16_t(ppc_cur_instruction))` idiom of the load/store handlers. -/
def sext16 (x : Nat) : Nat :=
  if x &&& 0xFFFF < 0x8000 then x &&& 0xFFFF else (x &&& 0xFFFF) + 0xFFFF0000

/-- Destination/source register field rD/rS/frD/frS: instruction bits 21..25. -/
def regD (instr : Nat) : Nat := (instr >>> 21) &&& 31

/-- Register field rA/frA: instruction bits 16..20. -/
def regA (instr : Nat) : Nat := (instr >>> 16) &&& 31

/-- Register field rB/frB: instruction bits 11..15. -/
def regB (instr : Nat) : Nat := (instr >>> 11) &&& 31

/-- Register field frC: instruction bits 6..10. -/
def regC (instr : Nat) : Nat := (instr >>> 6) &&& 31

/-- Value of an IEEE-754 double register pattern: NaN (with the
signalling flag), a signed infinity, or a finite value given by a sign
and an exact non-negative dyadic magnitude `m / 2^d` (so that
`fin true 0 0` is the pattern's negative zero). -/
inductive Fp where
  | nan (snan : Bool)
  | inf (neg : Bool)
  | fin (neg : Bool) (m : Nat) (d : Nat)
deriving DecidableEq

/-- Outcome of an IEEE comparison: the four mutually exclusive relations. -/
inductive FpCmp where
  | lt
  | gt
  | eq
  | unord
deriving DecidableEq

/-- Decode a 64-bit register pattern as an IEEE-754 double (binary64):
sign bit 63, biased exponent bits 62..52, mantissa bits 51..0.  A NaN is
signalling when mantissa bit 51 is clear. -/
def interp (bits : Nat) : Fp :=
  let s := bits.testBit 63
  let e := (bits >>> 52) &&& 0x7FF
  let m := bits &&& 0xFFFFFFFFFFFFF
  if e = 0x7FF then
    if m = 0 then Fp.inf s else Fp.nan (!bits.testBit 51)
  else if e = 0 then
    Fp.fin s m 1074
  else
    Fp.fin s (2 ^ 52 + m) (1075 - e)

/-- Check whether a decoded value is a NaN (std::isnan). -/
def Fp.isNaN : Fp → Bool
  | Fp.nan _ => true
  | _ => false

/-- Check whether a decoded value is an infinity (std::isinf). -/
def Fp.isInf : Fp → Bool
  | Fp.inf _ => true
  | _ => false

/-- Comparison of two dyadic magnitudes: `m1 / 2^d1 < m2 / 2^d2`,
decided exactly by cross multiplication (written with shifts, since
`m <<< d = m * 2^d`). -/
def magLt (m1 d1 m2 d2 : Nat) : Bool := m1 <<< d2 < m2 <<< d1

/-- Signed rational value of a finite `Fp` (0 for NaN/infinity). -/
def Fp.ratVal : Fp → ℚ
  | Fp.fin neg m d => if neg then -((m : ℚ) / 2 ^ d) else (m : ℚ) / 2 ^ d
  | _ => 0

/-- IEEE comparison of two decoded doubles.  Any NaN operand makes the
comparison unordered; positive and negative zero compare equal. -/
def fpCompare (a b : Fp) : FpCmp :=
  match a, b with
  | Fp.nan _, _ => FpCmp.unord
  | _, Fp.nan _ => FpCmp.unord
  | Fp.inf sa, Fp.inf sb =>
      if sa = sb then FpCmp.eq else if sa then FpCmp.lt else FpCmp.gt
  | Fp.inf sa, Fp.fin _ _ _ => if sa then FpCmp.lt else FpCmp.gt
  | Fp.fin _ _ _, Fp.inf sb => if sb then FpCmp.gt else FpCmp.lt
  | Fp.fin sa ma da, Fp.fin sb mb db =>
      match sa, sb with
      | false, false =>
          if magLt ma da mb db then FpCmp.lt
          else if magLt mb db ma da then FpCmp.gt
          else FpCmp.eq
      | true, true =>
          if magLt ma da mb db then FpCmp.gt
          else if magLt mb db ma da then FpCmp.lt
          else FpCmp.eq
      | true, false => if ma = 0 ∧ mb = 0 then FpCmp.eq else FpCmp.lt
      | false, true => if ma = 0 ∧ mb = 0 then FpCmp.eq else FpCmp.gt

/-- IEEE `<` on decoded doubles (false on any NaN operand). -/
def fpLt (a b : Fp) : Bool := fpCompare a b = FpCmp.lt

/-- IEEE `>` on decoded doubles (false on any NaN operand). -/
def fpGt (a b : Fp) : Bool := fpCompare a b = FpCmp.gt

/-- IEEE `>=` on decoded doubles (false on any NaN operand). -/
def fpGe (a b : Fp) : Bool :=
  match fpCompare a b with
  | FpCmp.gt => true
  | FpCmp.eq => true
  | _ => false

/-- IEEE `==` on decoded doubles (false on any NaN operand). -/
def fpEq (a b : Fp) : Bool := fpCompare a b = FpCmp.eq

/-- Host FPU rounding mode, the state set through std::fesetround. -/
inductive RoundMode where
  | nearest
  | towardZero
  | upward
  | downward
deriving DecidableEq

/-- Rounding mode named by an FPSCR[RN] value, per the switch in
set_host_rounding_mode: 00 nearest-even, 01 toward zero, 10 toward
positive infinity, 11 toward negative infinity. -/
def rmOf (n : Nat) : RoundMode :=
  match n &&& FPSCR_RN_MASK with
  | 0 => RoundMode.nearest
  | 1 => RoundMode.towardZero
  | 2 => RoundMode.upward
  | _ => RoundMode.downward

/-- Guest CPU state touched by the floating-point handlers, plus the
host FPU rounding mode (the std::fesetround state).  Registers are
functions from the (already masked) register number to the stored word:
32-bit values in `gpr`, 64-bit IEEE double patterns in `fpr`. -/
structure CpuState where
  gpr : Nat → Nat
  fpr : Nat → Nat
  cr : Nat
  fpscr : Nat
  hostRound : RoundMode

/-- Pointwise update of a register file. -/
def upd (f : Nat → Nat) (i v : Nat) : Nat → Nat :=
  fun j => if j = i then v else f j

/-- Exception types raised by the modelled handlers (Except_Type). -/
inductive Except_Type where
  | EXC_PROGRAM
deriving DecidableEq

/-- Exception causes raised by the modelled handlers (Exc_Cause). -/
inductive Exc_Cause where
  | ILLEGAL_OP
deriving DecidableEq

/-- Memory access performed through the MMU by a load/store handler. -/
inductive MemAccess where
  | read32 (addr : Nat)
  | read64 (addr : Nat)
  | write32 (addr val : Nat)
  | write64 (addr val : Nat)
deriving DecidableEq

/-- Outcome of a load/store handler: either normal retirement with the
final state and the list of memory accesses performed, or invocation of
ppc_exception_handler with the state at that point (these handlers raise
before touching any register or memory). -/
inductive MemOutcome where
  | retired (s : CpuState) (trace : List MemAccess)
  | excep (t : Except_Type) (c : Exc_Cause) (s : CpuState)

/-- Copy FPSCR[FX|FEX|VX|OX] into CR1 (ppc_update_cr1):
`cr = (cr & ~CR1_field) | ((fpscr >> 4) & CR1_field)`. -/
def ppc_update_cr1 (s : CpuState) : CpuState :=
  { s with cr := (s.cr &&& compl32 CR1_field) ||| ((s.fpscr >>> 4) &&& CR1_field) }

/-- Apply the trailing `if (rc_flag) ppc_update_cr1();` of a handler. -/
def rcWrap (rc : Bool) (s : CpuState) : CpuState :=
  if rc then ppc_update_cr1 s else s

/-- Recompute FPSCR[FEX] (update_fex):
`fex_result = !!((fpscr & (fpscr << 22)) & 0x3E000000)` followed by
`fpscr = (fpscr & ~0x40000000) | (fex_result << 30)`, in `uint32_t`
arithmetic. -/
def update_fex (f : Nat) : Nat :=
  let fex_result : Nat := if (f &&& shl32 f 22) &&& 0x3E000000 ≠ 0 then 1 else 0
  (f &&& compl32 0x40000000) ||| (fex_result <<< 30)

/-- Floating-point operation selector of the ppc_confirm_inf_nan template.

Uppercase source constant names DIV/SUB/ADD/SQRT/MUL are kept. -/
inductive FPOP where
  | DIV
  | SUB
  | ADD
  | SQRT
  | MUL
deriving DecidableEq

/-- Value the source's `input == FP_ZERO` comparison actually tests.
FP_ZERO is the fpclassify classification macro (value 2 in glibc), and
ppc_confirm_inf_nan's DIV case compares the operand's double value
against it, so the test is `input == 2.0`.  This slip is kept
faithfully. -/
def FP_ZERO_value : Fp := Fp.fin false 2 0

/-- Invalid-operation detection of ppc_confirm_inf_nan: reads the two
chosen registers, clears FX and VXIDI (`fpscr &= 0x7fbfffff`), sets the
per-operation cause bits, and recomputes FEX via update_fex.  The
rc_flag parameter mirrors the unused template parameter. -/
def ppc_confirm_inf_nan (fpop : FPOP) (r1 r2 : Nat) (_rc : Bool) (s : CpuState) :
    CpuState :=
  let input_a := interp (s.fpr r1)
  let input_b := interp (s.fpr r2)
  let f0 := s.fpscr &&& 0x7FBFFFFF
  let f1 :=
    match fpop with
    | FPOP.DIV =>
        if input_a.isInf && input_b.isInf then f0 ||| (FPSCR_FX ||| FPSCR_VXIDI)
        else if fpEq input_a FP_ZERO_value && fpEq input_b FP_ZERO_value then
          f0 ||| (FPSCR_FX ||| FPSCR_VXZDZ)
        else f0
    | FPOP.SUB =>
        let g := if input_a.isInf && input_b.isInf then f0 ||| (FPSCR_FX ||| FPSCR_VXISI)
                 else f0
        if input_a.isNaN && input_b.isNaN then g ||| (FPSCR_FX ||| FPSCR_VXISI) else g
    | FPOP.ADD =>
        if input_a.isNaN && input_b.isNaN then f0 ||| (FPSCR_FX ||| FPSCR_VXISI) else f0
    | FPOP.SQRT =>
        if input_b.isNaN || fpEq input_b (Fp.fin true 1 0) then
          f0 ||| (FPSCR_FX ||| FPSCR_VXSQRT)
        else f0
    | FPOP.MUL =>
        if input_a.isNaN && input_b.isNaN then f0 ||| FPSCR_FX else f0
  { s with fpscr := update_fex f1 }

/-- Derive the FPCC/class bits ORed into FPSCR by fpresult_update for a
given result value (the bits added, not the whole update). -/
def fpccOf (r : Fp) : Nat :=
  if r.isNaN then FPCC_FUNAN ||| FPRCD
  else
    (if fpGt r (Fp.fin false 0 0) then FPCC_POS
     else if fpLt r (Fp.fin false 0 0) then FPCC_NEG
     else FPCC_ZERO) |||
    (if r.isInf then FPCC_FUNAN else 0)

/-- FPCC derivation of fpresult_update: OR the result's class bits into
FPSCR without clearing anything (NaN → FU|C; positive → FG; negative →
FL; zero → FE; an infinity additionally FU). -/
def fpresult_update (set_result : Fp) (f : Nat) : Nat :=
  if set_result.isNaN then f ||| (FPCC_FUNAN ||| FPRCD)
  else
    let f1 :=
      if fpGt set_result (Fp.fin false 0 0) then f ||| FPCC_POS
      else if fpLt set_result (Fp.fin false 0 0) then f ||| FPCC_NEG
      else f ||| FPCC_ZERO
    if set_result.isInf then f1 ||| FPCC_FUNAN else f1

/-- Host rounding-mode synchronisation (set_host_rounding_mode): switch
on `mode & RN_MASK` and call std::fesetround accordingly. -/
def set_host_rounding_mode (mode : Nat) (s : CpuState) : CpuState :=
  { s with hostRound := rmOf (mode &&& FPSCR_RN_MASK) }

/-- Full FPSCR replacement (update_fpscr): when the RN field of the new
value differs from the current one, first re-synchronise the host FPU
rounding mode; then store the new FPSCR. -/
def update_fpscr (new_fpscr : Nat) (s : CpuState) : CpuState :=
  if new_fpscr &&& FPSCR_RN_MASK ≠ s.fpscr &&& FPSCR_RN_MASK then
    { (set_host_rounding_mode (new_fpscr &&& FPSCR_RN_MASK) s) with fpscr := new_fpscr }
  else
    { s with fpscr := new_fpscr }

/-- Conversion of a signed integer to `uint32_t` (two's-complement wrap). -/
def u32ofInt (i : Int) : Nat := (i % (2 ^ 32 : Int)).toNat

/-- Rounding helper round_to_nearest: `int32_t(int64_t(std::floor(f + 0.5)))`
applied to the exact value of an in-range operand. -/
def round_to_nearest (q : ℚ) : Int := ⌊q + 1 / 2⌋

/-- Rounding helper round_to_zero: `int32_t(std::trunc(f))`. -/
def round_to_zero (q : ℚ) : Int := if q < 0 then ⌈q⌉ else ⌊q⌋

/-- Rounding helper round_to_pos_inf: `int32_t(std::ceil(f))`. -/
def round_to_pos_inf (q : ℚ) : Int := ⌈q⌉

/-- Rounding helper round_to_neg_inf: `int32_t(std::floor(f))`. -/
def round_to_neg_inf (q : ℚ) : Int := ⌊q⌋

/-- Outcome of an FPSCR-updating handler that may invoke the external
ppc_floating_point_exception routine: normal retirement, or the enabled
invalid-operation exception (the state records the FPSCR with FEX set at
the moment of the call; what the external routine does next is outside
this model). -/
inductive FpOutcome where
  | ok (s : CpuState)
  | fpexc (s : CpuState)

/-- Shared body of fctiw/fctiwz (round_to_int): NaN and out-of-range
operands clear FR/FI, set VXCVI and VX, and either raise the enabled
exception (VE set, also setting FEX) or write the saturating sentinel
with high word 0xFFF80000; in-range operands are rounded per `mode & 3`
and stored with the 0xFFF8000000000000 integer tag. -/
def round_to_int (mode : Nat) (instr : Nat) (rc : Bool) (s : CpuState) : FpOutcome :=
  let reg_d := regD instr
  let reg_b := regB instr
  let val_reg_b := interp (s.fpr reg_b)
  if val_reg_b.isNaN then
    let f1 := (s.fpscr &&& compl32 (FPSCR_FR ||| FPSCR_FI)) ||| (FPSCR_VXCVI ||| FPSCR_VX)
    let f2 := if !(s.fpr reg_b).testBit 51 then f1 ||| FPSCR_VXSNAN else f1
    if f2 &&& FPSCR_VE ≠ 0 then
      FpOutcome.fpexc (rcWrap rc { s with fpscr := f2 ||| FPSCR_FEX })
    else
      FpOutcome.ok (rcWrap rc
        { s with fpscr := f2, fpr := upd s.fpr reg_d 0xFFF8000080000000 })
  else if fpGt val_reg_b (Fp.fin false 2147483647 0) ||
          fpLt val_reg_b (Fp.fin true 2147483648 0) then
    let f1 := (s.fpscr &&& compl32 (FPSCR_FR ||| FPSCR_FI)) ||| (FPSCR_VXCVI ||| FPSCR_VX)
    if f1 &&& FPSCR_VE ≠ 0 then
      FpOutcome.fpexc (rcWrap rc { s with fpscr := f1 ||| FPSCR_FEX })
    else
      FpOutcome.ok (rcWrap rc
        { s with fpscr := f1,
                 fpr := upd s.fpr reg_d
                   (if fpGe val_reg_b (Fp.fin false 0 0) then 0xFFF800007FFFFFFF
                    else 0xFFF8000080000000) })
  else
    let q := val_reg_b.ratVal
    let r : Int :=
      match mode &&& 3 with
      | 0 => round_to_nearest q
      | 1 => round_to_zero q
      | 2 => round_to_pos_inf q
      | _ => round_to_neg_inf q
    FpOutcome.ok (rcWrap rc
      { s with fpr := upd s.fpr reg_d (u32ofInt r ||| 0xFFF8000000000000) })

/-- Handler ppc_fctiw: round_to_int with the FPSCR[RN] mode. -/
def ppc_fctiw (instr : Nat) (rc : Bool) (s : CpuState) : FpOutcome :=
  round_to_int (s.fpscr &&& 3) instr rc s

/-- Handler ppc_fctiwz: round_to_int with forced truncation (mode 1). -/
def ppc_fctiwz (instr : Nat) (rc : Bool) (s : CpuState) : FpOutcome :=
  round_to_int 1 instr rc s

/-- Handler ppc_fres.  The host computation `(float)(1.0 / start_num)`
is the bit-level parameter `resBits`.  The handler stores the estimate
and then sets ZX for a zero operand, VXSNAN for a NaN operand, or (after
clearing FPSCR bits 17..18) VXSNAN for an infinite operand — without
calling update_fex. -/
def ppc_fres (resBits : Nat → Nat) (instr : Nat) (rc : Bool) (s : CpuState) :
    CpuState :=
  let reg_d := regD instr
  let reg_b := regB instr
  let start_num := interp (s.fpr reg_b)
  let s1 := { s with fpr := upd s.fpr reg_d (resBits (s.fpr reg_b)) }
  let f :=
    if fpEq start_num (Fp.fin false 0 0) then s.fpscr ||| FPSCR_ZX
    else if start_num.isNaN then s.fpscr ||| FPSCR_VXSNAN
    else if start_num.isInf then (s.fpscr &&& 0xFFF9FFFF) ||| FPSCR_VXSNAN
    else s.fpscr
  rcWrap rc { s1 with fpscr := f }

/-- IEEE-754 negation of a double register pattern (sign-bit flip), the
unary minus applied by the fused handlers. -/
def negBits (x : Nat) : Nat := x ^^^ 2 ^ 63

/-- Handler ppc_fadd.  `addBits` is the host's double addition on
register patterns.  A NaN operand first ORs FPCC_FUNAN into FPSCR and
runs ppc_confirm_inf_nan ADD; the sum is stored to frD and FPCC derived
by fpresult_update; rc copies FPSCR[0:3] to CR1. -/
def ppc_fadd (addBits : Nat → Nat → Nat) (instr : Nat) (rc : Bool) (s : CpuState) :
    CpuState :=
  let reg_d := regD instr
  let reg_a := regA instr
  let reg_b := regB instr
  let s1 :=
    if (interp (s.fpr reg_a)).isNaN || (interp (s.fpr reg_b)).isNaN then
      ppc_confirm_inf_nan FPOP.ADD reg_a reg_b rc { s with fpscr := s.fpscr ||| FPCC_FUNAN }
    else s
  let res := addBits (s.fpr reg_a) (s.fpr reg_b)
  rcWrap rc { s1 with fpr := upd s1.fpr reg_d res,
                      fpscr := fpresult_update (interp res) s1.fpscr }

/-- Handler ppc_fsub (host double subtraction as `subBits`). -/
def ppc_fsub (subBits : Nat → Nat → Nat) (instr : Nat) (rc : Bool) (s : CpuState) :
    CpuState :=
  let reg_d := regD instr
  let reg_a := regA instr
  let reg_b := regB instr
  let s1 :=
    if (interp (s.fpr reg_a)).isNaN || (interp (s.fpr reg_b)).isNaN then
      ppc_confirm_inf_nan FPOP.SUB reg_a reg_b rc { s with fpscr := s.fpscr ||| FPCC_FUNAN }
    else s
  let res := subBits (s.fpr reg_a) (s.fpr reg_b)
  rcWrap rc { s1 with fpr := upd s1.fpr reg_d res,
                      fpscr := fpresult_update (interp res) s1.fpscr }

/-- Handler ppc_fdiv (host double division as `divBits`; no FPCC_FUNAN
pre-set, unlike fadd/fsub). -/
def ppc_fdiv (divBits : Nat → Nat → Nat) (instr : Nat) (rc : Bool) (s : CpuState) :
    CpuState :=
  let reg_d := regD instr
  let reg_a := regA instr
  let reg_b := regB instr
  let s1 :=
    if (interp (s.fpr reg_a)).isNaN || (interp (s.fpr reg_b)).isNaN then
      ppc_confirm_inf_nan FPOP.DIV reg_a reg_b rc s
    else s
  let res := divBits (s.fpr reg_a) (s.fpr reg_b)
  rcWrap rc { s1 with fpr := upd s1.fpr reg_d res,
                      fpscr := fpresult_update (interp res) s1.fpscr }

/-- Handler ppc_fmul (operands frA and frC; host multiplication as
`mulBits`). -/
def ppc_fmul (mulBits : Nat → Nat → Nat) (instr : Nat) (rc : Bool) (s : CpuState) :
    CpuState :=
  let reg_d := regD instr
  let reg_a := regA instr
  let reg_c := regC instr
  let s1 :=
    if (interp (s.fpr reg_a)).isNaN || (interp (s.fpr reg_c)).isNaN then
      ppc_confirm_inf_nan FPOP.MUL reg_a reg_c rc s
    else s
  let res := mulBits (s.fpr reg_a) (s.fpr reg_c)
  rcWrap rc { s1 with fpr := upd s1.fpr reg_d res,
                      fpscr := fpresult_update (interp res) s1.fpscr }

/-- Handler ppc_fmadd: result `std::fma(frA, frC, frB)` as the ternary
host parameter `fmaBits`. -/
def ppc_fmadd (fmaBits : Nat → Nat → Nat → Nat) (instr : Nat) (rc : Bool)
    (s : CpuState) : CpuState :=
  let reg_d := regD instr
  let reg_a := regA instr
  let reg_b := regB instr
  let reg_c := regC instr
  let s1 :=
    if (interp (s.fpr reg_a)).isNaN || (interp (s.fpr reg_c)).isNaN then
      ppc_confirm_inf_nan FPOP.MUL reg_a reg_c rc s
    else s
  let s2 :=
    if (interp (s.fpr reg_b)).isNaN then
      ppc_confirm_inf_nan FPOP.ADD reg_a reg_b rc s1
    else s1
  let res := fmaBits (s.fpr reg_a) (s.fpr reg_c) (s.fpr reg_b)
  rcWrap rc { s2 with fpr := upd s2.fpr reg_d res,
                      fpscr := fpresult_update (interp res) s2.fpscr }

/-- Handler ppc_fmsub: result `std::fma(frA, frC, -frB)`. -/
def ppc_fmsub (fmaBits : Nat → Nat → Nat → Nat) (instr : Nat) (rc : Bool)
    (s : CpuState) : CpuState :=
  let reg_d := regD instr
  let reg_a := regA instr
  let reg_b := regB instr
  let reg_c := regC instr
  let s1 :=
    if (interp (s.fpr reg_a)).isNaN || (interp (s.fpr reg_c)).isNaN then
      ppc_confirm_inf_nan FPOP.MUL reg_a reg_c rc s
    else s
  let s2 :=
    if (interp (s.fpr reg_b)).isNaN then
      ppc_confirm_inf_nan FPOP.SUB reg_a reg_b rc s1
    else s1
  let res := fmaBits (s.fpr reg_a) (s.fpr reg_c) (negBits (s.fpr reg_b))
  rcWrap rc { s2 with fpr := upd s2.fpr reg_d res,
                      fpscr := fpresult_update (interp res) s2.fpscr }

/-- Handler ppc_fnmadd: result `-std::fma(frA, frC, frB)`. -/
def ppc_fnmadd (fmaBits : Nat → Nat → Nat → Nat) (instr : Nat) (rc : Bool)
    (s : CpuState) : CpuState :=
  let reg_d := regD instr
  let reg_a := regA instr
  let reg_b := regB instr
  let reg_c := regC instr
  let s1 :=
    if (interp (s.fpr reg_a)).isNaN || (interp (s.fpr reg_c)).isNaN then
      ppc_confirm_inf_nan FPOP.MUL reg_a reg_c rc s
    else s
  let s2 :=
    if (interp (s.fpr reg_b)).isNaN then
      ppc_confirm_inf_nan FPOP.ADD reg_a reg_b rc s1
    else s1
  let res := negBits (fmaBits (s.fpr reg_a) (s.fpr reg_c) (s.fpr reg_b))
  rcWrap rc { s2 with fpr := upd s2.fpr reg_d res,
                      fpscr := fpresult_update (interp res) s2.fpscr }

/-- Handler ppc_fnmsub: result `std::fma(-frA, frC, frB)`. -/
def ppc_fnmsub (fmaBits : Nat → Nat → Nat → Nat) (instr : Nat) (rc : Bool)
    (s : CpuState) : CpuState :=
  let reg_d := regD instr
  let reg_a := regA instr
  let reg_b := regB instr
  let reg_c := regC instr
  let s1 :=
    if (interp (s.fpr reg_a)).isNaN || (interp (s.fpr reg_c)).isNaN then
      ppc_confirm_inf_nan FPOP.MUL reg_a reg_c rc s
    else s
  let s2 :=
    if (interp (s.fpr reg_b)).isNaN then
      ppc_confirm_inf_nan FPOP.SUB reg_a reg_b rc s1
    else s1
  let res := fmaBits (negBits (s.fpr reg_a)) (s.fpr reg_c) (s.fpr reg_b)
  rcWrap rc { s2 with fpr := upd s2.fpr reg_d res,
                      fpscr := fpresult_update (interp res) s2.fpscr }

/-- Handler ppc_fadds: single-precision add; the composite
`(double)(float)(frA + frB)` is the host parameter `addsBits`.  Unlike
ppc_fadd, the NaN path does not pre-set FPCC_FUNAN. -/
def ppc_fadds (addsBits : Nat → Nat → Nat) (instr : Nat) (rc : Bool) (s : CpuState) :
    CpuState :=
  let reg_d := regD instr
  let reg_a := regA instr
  let reg_b := regB instr
  let s1 :=
    if (interp (s.fpr reg_a)).isNaN || (interp (s.fpr reg_b)).isNaN then
      ppc_confirm_inf_nan FPOP.ADD reg_a reg_b rc s
    else s
  let res := addsBits (s.fpr reg_a) (s.fpr reg_b)
  rcWrap rc { s1 with fpr := upd s1.fpr reg_d res,
                      fpscr := fpresult_update (interp res) s1.fpscr }

/-- Handler ppc_fsubs (single-precision subtract as `subsBits`). -/
def ppc_fsubs (subsBits : Nat → Nat → Nat) (instr : Nat) (rc : Bool) (s : CpuState) :
    CpuState :=
  let reg_d := regD instr
  let reg_a := regA instr
  let reg_b := regB instr
  let s1 :=
    if (interp (s.fpr reg_a)).isNaN || (interp (s.fpr reg_b)).isNaN then
      ppc_confirm_inf_nan FPOP.SUB reg_a reg_b rc s
    else s
  let res := subsBits (s.fpr reg_a) (s.fpr reg_b)
  rcWrap rc { s1 with fpr := upd s1.fpr reg_d res,
                      fpscr := fpresult_update (interp res) s1.fpscr }

/-- Handler ppc_fdivs (single-precision divide as `divsBits`). -/
def ppc_fdivs (divsBits : Nat → Nat → Nat) (instr : Nat) (rc : Bool) (s : CpuState) :
    CpuState :=
  let reg_d := regD instr
  let reg_a := regA instr
  let reg_b := regB instr
  let s1 :=
    if (interp (s.fpr reg_a)).isNaN || (interp (s.fpr reg_b)).isNaN then
      ppc_confirm_inf_nan FPOP.DIV reg_a reg_b rc s
    else s
  let res := divsBits (s.fpr reg_a) (s.fpr reg_b)
  rcWrap rc { s1 with fpr := upd s1.fpr reg_d res,
                      fpscr := fpresult_update (interp res) s1.fpscr }

/-- Handler ppc_fmuls (single-precision multiply of frA and frC). -/
def ppc_fmuls (mulsBits : Nat → Nat → Nat) (instr : Nat) (rc : Bool) (s : CpuState) :
    CpuState :=
  let reg_d := regD instr
  let reg_a := regA instr
  let reg_c := regC instr
  let s1 :=
    if (interp (s.fpr reg_a)).isNaN || (interp (s.fpr reg_c)).isNaN then
      ppc_confirm_inf_nan FPOP.MUL reg_a reg_c rc s
    else s
  let res := mulsBits (s.fpr reg_a) (s.fpr reg_c)
  rcWrap rc { s1 with fpr := upd s1.fpr reg_d res,
                      fpscr := fpresult_update (interp res) s1.fpscr }

/-- Handler ppc_fmadds: `(float)std::fma(frA, frC, frB)` as `fmasBits`. -/
def ppc_fmadds (fmasBits : Nat → Nat → Nat → Nat) (instr : Nat) (rc : Bool)
    (s : CpuState) : CpuState :=
  let reg_d := regD instr
  let reg_a := regA instr
  let reg_b := regB instr
  let reg_c := regC instr
  let s1 :=
    if (interp (s.fpr reg_a)).isNaN || (interp (s.fpr reg_c)).isNaN then
      ppc_confirm_inf_nan FPOP.MUL reg_a reg_c rc s
    else s
  let s2 :=
    if (interp (s.fpr reg_b)).isNaN then
      ppc_confirm_inf_nan FPOP.ADD reg_a reg_b rc s1
    else s1
  let res := fmasBits (s.fpr reg_a) (s.fpr reg_c) (s.fpr reg_b)
  rcWrap rc { s2 with fpr := upd s2.fpr reg_d res,
                      fpscr := fpresult_update (interp res) s2.fpscr }

/-- Handler ppc_fmsubs: `(float)std::fma(frA, frC, -frB)`. -/
def ppc_fmsubs (fmasBits : Nat → Nat → Nat → Nat) (instr : Nat) (rc : Bool)
    (s : CpuState) : CpuState :=
  let reg_d := regD instr
  let reg_a := regA instr
  let reg_b := regB instr
  let reg_c := regC instr
  let s1 :=
    if (interp (s.fpr reg_a)).isNaN || (interp (s.fpr reg_c)).isNaN then
      ppc_confirm_inf_nan FPOP.MUL reg_a reg_c rc s
    else s
  let s2 :=
    if (interp (s.fpr reg_b)).isNaN then
      ppc_confirm_inf_nan FPOP.SUB reg_a reg_b rc s1
    else s1
  let res := fmasBits (s.fpr reg_a) (s.fpr reg_c) (negBits (s.fpr reg_b))
  rcWrap rc { s2 with fpr := upd s2.fpr reg_d res,
                      fpscr := fpresult_update (interp res) s2.fpscr }

/-- Handler ppc_fnmadds: `-(float)std::fma(frA, frC, frB)`. -/
def ppc_fnmadds (fmasBits : Nat → Nat → Nat → Nat) (instr : Nat) (rc : Bool)
    (s : CpuState) : CpuState :=
  let reg_d := regD instr
  let reg_a := regA instr
  let reg_b := regB instr
  let reg_c := regC instr
  let s1 :=
    if (interp (s.fpr reg_a)).isNaN || (interp (s.fpr reg_c)).isNaN then
      ppc_confirm_inf_nan FPOP.MUL reg_a reg_c rc s
    else s
  let s2 :=
    if (interp (s.fpr reg_b)).isNaN then
      ppc_confirm_inf_nan FPOP.ADD reg_a reg_b rc s1
    else s1
  let res := negBits (fmasBits (s.fpr reg_a) (s.fpr reg_c) (s.fpr reg_b))
  rcWrap rc { s2 with fpr := upd s2.fpr reg_d res,
                      fpscr := fpresult_update (interp res) s2.fpscr }

/-- Handler ppc_fnmsubs: `(float)std::fma(-frA, frC, frB)`. -/
def ppc_fnmsubs (fmasBits : Nat → Nat → Nat → Nat) (instr : Nat) (rc : Bool)
    (s : CpuState) : CpuState :=
  let reg_d := regD instr
  let reg_a := regA instr
  let reg_b := regB instr
  let reg_c := regC instr
  let s1 :=
    if (interp (s.fpr reg_a)).isNaN || (interp (s.fpr reg_c)).isNaN then
      ppc_confirm_inf_nan FPOP.MUL reg_a reg_c rc s
    else s
  let s2 :=
    if (interp (s.fpr reg_b)).isNaN then
      ppc_confirm_inf_nan FPOP.SUB reg_a reg_b rc s1
    else s1
  let res := fmasBits (negBits (s.fpr reg_a)) (s.fpr reg_c) (s.fpr reg_b)
  rcWrap rc { s2 with fpr := upd s2.fpr reg_d res,
                      fpscr := fpresult_update (interp res) s2.fpscr }

/-- Handler ppc_fsel: `frD = (frA >= -0.0) ? frC : frB`, a pure register
select with no FPSCR access at all. -/
def ppc_fsel (instr : Nat) (rc : Bool) (s : CpuState) : CpuState :=
  let reg_d := regD instr
  let reg_a := regA instr
  let reg_b := regB instr
  let reg_c := regC instr
  let res :=
    if fpGe (interp (s.fpr reg_a)) (Fp.fin true 0 0) then s.fpr reg_c
    else s.fpr reg_b
  rcWrap rc { s with fpr := upd s.fpr reg_d res }

/-- Handler ppc_fcmpo: an ordered comparison of frA and frB.  Any NaN
operand yields the unordered nibble CR_SO; the nibble lands in both
FPSCR[FPCC] and the chosen CR field.  No FX/VXVC/VXSNAN bit is touched
(the source carries a TODO for the SNAN case). -/
def ppc_fcmpo (instr : Nat) (s : CpuState) : CpuState :=
  let crf_d := (instr >>> 21) &&& 0x1C
  let db_test_a := interp (s.fpr (regA instr))
  let db_test_b := interp (s.fpr (regB instr))
  let cmp_c : Nat :=
    if db_test_a.isNaN || db_test_b.isNaN then CR_SO
    else if fpLt db_test_a db_test_b then CR_LT
    else if fpGt db_test_a db_test_b then CR_GT
    else CR_EQ
  { s with fpscr := (s.fpscr &&& compl32 FPSCR_FPCC_MASK) ||| (cmp_c >>> 16),
           cr := (s.cr &&& compl32 (0xF0000000 >>> crf_d)) ||| (cmp_c >>> crf_d) }

/-- Handler ppc_mtfsf: copy FPR[frB] to FPSCR under the FM field mask,
with the FEX and VX positions always removed from the mask
(`cr_mask &= ~(FPSCR::FEX | FPSCR::VX)`). -/
def ppc_mtfsf (instr : Nat) (rc : Bool) (s : CpuState) : CpuState :=
  let reg_b := (instr >>> 11) &&& 0x1F
  let fm := (instr >>> 17) &&& 0xFF
  let cr_mask0 : Nat :=
    if fm = 0xFF then 0xFFFFFFFF
    else
      (if fm &&& 0x80 ≠ 0 then 0xF0000000 else 0) |||
      (if fm &&& 0x40 ≠ 0 then 0x0F000000 else 0) |||
      (if fm &&& 0x20 ≠ 0 then 0x00F00000 else 0) |||
      (if fm &&& 0x10 ≠ 0 then 0x000F0000 else 0) |||
      (if fm &&& 0x08 ≠ 0 then 0x0000F000 else 0) |||
      (if fm &&& 0x04 ≠ 0 then 0x00000F00 else 0) |||
      (if fm &&& 0x02 ≠ 0 then 0x000000F0 else 0) |||
      (if fm &&& 0x01 ≠ 0 then 0x0000000F else 0)
  let cr_mask := cr_mask0 &&& compl32 (FPSCR_FEX ||| FPSCR_VX)
  rcWrap rc
    { s with fpscr := (s.fpscr &&& compl32 cr_mask) ||| (s.fpr reg_b &&& cr_mask) }

/-- Handler ppc_mtfsfi: copy a 4-bit immediate into FPSCR field crfD,
with the FEX and VX positions removed from the field mask. -/
def ppc_mtfsfi (instr : Nat) (rc : Bool) (s : CpuState) : CpuState :=
  let crf_d := (instr >>> 21) &&& 0x1C
  let imm := shl32 instr 16 &&& 0xF0000000
  let mask := (0xF0000000 >>> crf_d) &&& compl32 (FPSCR_FEX ||| FPSCR_VX)
  rcWrap rc
    { s with fpscr := (s.fpscr &&& compl32 mask) ||| ((imm >>> crf_d) &&& mask) }

/-- Handler ppc_mtfsb0: clear FPSCR bit crfD, except bits 1 and 2 (FEX
and VX cannot be explicitly cleared). -/
def ppc_mtfsb0 (instr : Nat) (rc : Bool) (s : CpuState) : CpuState :=
  let crf_d := (instr >>> 21) &&& 0x1F
  let s1 :=
    if crf_d = 0 ∨ crf_d > 2 then
      { s with fpscr := s.fpscr &&& compl32 (0x80000000 >>> crf_d) }
    else s
  rcWrap rc s1

/-- Handler ppc_mtfsb1: set FPSCR bit crfD, except bits 1 and 2 (FEX and
VX cannot be explicitly set). -/
def ppc_mtfsb1 (instr : Nat) (rc : Bool) (s : CpuState) : CpuState :=
  let crf_d := (instr >>> 21) &&& 0x1F
  let s1 :=
    if crf_d = 0 ∨ crf_d > 2 then
      { s with fpscr := s.fpscr ||| (0x80000000 >>> crf_d) }
    else s
  rcWrap rc s1

/-- Handler ppc_lfsu: update-form single-precision load.  `m32` is the
mmu_read_vmem oracle and `f32ext` the float-to-double bit conversion of
the loaded word.  With rA = 0 the handler raises the illegal-instruction
program exception before any register write or memory access. -/
def ppc_lfsu (m32 f32ext : Nat → Nat) (instr : Nat) (s : CpuState) : MemOutcome :=
  let reg_d := regD instr
  let reg_a := regA instr
  if reg_a ≠ 0 then
    let ea := (sext16 instr + s.gpr reg_a) % 2 ^ 32
    let result := m32 ea
    MemOutcome.retired
      { s with fpr := upd s.fpr reg_d (f32ext result), gpr := upd s.gpr reg_a ea }
      [MemAccess.read32 ea]
  else
    MemOutcome.excep Except_Type.EXC_PROGRAM Exc_Cause.ILLEGAL_OP s

/-- Handler ppc_lfsux: indexed update-form single-precision load. -/
def ppc_lfsux (m32 f32ext : Nat → Nat) (instr : Nat) (s : CpuState) : MemOutcome :=
  let reg_d := regD instr
  let reg_a := regA instr
  let reg_b := regB instr
  if reg_a ≠ 0 then
    let ea := (s.gpr reg_a + s.gpr reg_b) % 2 ^ 32
    let result := m32 ea
    MemOutcome.retired
      { s with fpr := upd s.fpr reg_d (f32ext result), gpr := upd s.gpr reg_a ea }
      [MemAccess.read32 ea]
  else
    MemOutcome.excep Except_Type.EXC_PROGRAM Exc_Cause.ILLEGAL_OP s

/-- Handler ppc_lfdu: update-form double-precision load (`m64` is the
64-bit mmu_read_vmem oracle). -/
def ppc_lfdu (m64 : Nat → Nat) (instr : Nat) (s : CpuState) : MemOutcome :=
  let reg_d := regD instr
  let reg_a := regA instr
  if reg_a ≠ 0 then
    let ea := (sext16 instr + s.gpr reg_a) % 2 ^ 32
    MemOutcome.retired
      { s with fpr := upd s.fpr reg_d (m64 ea), gpr := upd s.gpr reg_a ea }
      [MemAccess.read64 ea]
  else
    MemOutcome.excep Except_Type.EXC_PROGRAM Exc_Cause.ILLEGAL_OP s

/-- Handler ppc_lfdux: indexed update-form double-precision load. -/
def ppc_lfdux (m64 : Nat → Nat) (instr : Nat) (s : CpuState) : MemOutcome :=
  let reg_d := regD instr
  let reg_a := regA instr
  let reg_b := regB instr
  if reg_a ≠ 0 then
    let ea := (s.gpr reg_a + s.gpr reg_b) % 2 ^ 32
    MemOutcome.retired
      { s with fpr := upd s.fpr reg_d (m64 ea), gpr := upd s.gpr reg_a ea }
      [MemAccess.read64 ea]
  else
    MemOutcome.excep Except_Type.EXC_PROGRAM Exc_Cause.ILLEGAL_OP s

/-- Handler ppc_stfsu: update-form single-precision store; `f64to32`
models the double-to-float conversion of the stored FPR. -/
def ppc_stfsu (f64to32 : Nat → Nat) (instr : Nat) (s : CpuState) : MemOutcome :=
  let reg_s := regD instr
  let reg_a := regA instr
  if reg_a ≠ 0 then
    let ea := (sext16 instr + s.gpr reg_a) % 2 ^ 32
    MemOutcome.retired { s with gpr := upd s.gpr reg_a ea }
      [MemAccess.write32 ea (f64to32 (s.fpr reg_s))]
  else
    MemOutcome.excep Except_Type.EXC_PROGRAM Exc_Cause.ILLEGAL_OP s

/-- Handler ppc_stfsux: indexed update-form single-precision store. -/
def ppc_stfsux (f64to32 : Nat → Nat) (instr : Nat) (s : CpuState) : MemOutcome :=
  let reg_s := regD instr
  let reg_a := regA instr
  let reg_b := regB instr
  if reg_a ≠ 0 then
    let ea := (s.gpr reg_a + s.gpr reg_b) % 2 ^ 32
    MemOutcome.retired { s with gpr := upd s.gpr reg_a ea }
      [MemAccess.write32 ea (f64to32 (s.fpr reg_s))]
  else
    MemOutcome.excep Except_Type.EXC_PROGRAM Exc_Cause.ILLEGAL_OP s

/-- Handler ppc_stfdu: update-form double-precision store of the raw
64-bit FPR pattern. -/
def ppc_stfdu (instr : Nat) (s : CpuState) : MemOutcome :=
  let reg_s := regD instr
  let reg_a := regA instr
  if reg_a ≠ 0 then
    let ea := (sext16 instr + s.gpr reg_a) % 2 ^ 32
    MemOutcome.retired { s with gpr := upd s.gpr reg_a ea }
      [MemAccess.write64 ea (s.fpr reg_s)]
  else
    MemOutcome.excep Except_Type.EXC_PROGRAM Exc_Cause.ILLEGAL_OP s

/-- Handler ppc_stfdux: indexed update-form double-precision store. -/
def ppc_stfdux (instr : Nat) (s : CpuState) : MemOutcome :=
  let reg_s := regD instr
  let reg_a := regA instr
  let reg_b := regB instr
  if reg_a ≠ 0 then
    let ea := (s.gpr reg_a + s.gpr reg_b) % 2 ^ 32
    MemOutcome.retired { s with gpr := upd s.gpr reg_a ea }
      [MemAccess.write64 ea (s.fpr reg_s)]
  else
    MemOutcome.excep Except_Type.EXC_PROGRAM Exc_Cause.ILLEGAL_OP s

/-- MacIO interrupt register offset MIO_INT_EVENTS2 from macio.h. -/
def MIO_INT_EVENTS2 : Nat := 0x10

/-- MacIO interrupt register offset MIO_INT_MASK2 from macio.h. -/
def MIO_INT_MASK2 : Nat := 0x14

/-- MacIO interrupt register offset MIO_INT_CLEAR2 from macio.h. -/
def MIO_INT_CLEAR2 : Nat := 0x18

/-- MacIO interrupt register offset MIO_INT_LEVELS2 from macio.h. -/
def MIO_INT_LEVELS2 : Nat := 0x1C

/-- MacIO interrupt register offset MIO_INT_EVENTS1 from macio.h. -/
def MIO_INT_EVENTS1 : Nat := 0x20

/-- MacIO interrupt register offset MIO_INT_MASK1 from macio.h. -/
def MIO_INT_MASK1 : Nat := 0x24

/-- MacIO interrupt register offset MIO_INT_CLEAR1 from macio.h. -/
def MIO_INT_CLEAR1 : Nat := 0x28

/-- MacIO interrupt register offset MIO_INT_LEVELS1 from macio.h. -/
def MIO_INT_LEVELS1 : Nat := 0x2C

/-- SCSI hard-disk device state relevant to seek/rewind: the get
position of the backing image stream (in bytes) and the measured image
size. -/
structure ScsiHardDisk where
  pos : Nat
  img_size : Nat
deriving DecidableEq

/-- Method ScsiHardDisk::seek:
`this->hdd_img.seekg(0, this->hdd_img.beg)` — the lba argument is
ignored and the stream is positioned at byte 0. -/
def ScsiHardDisk.seek (d : ScsiHardDisk) (lba : Nat) : ScsiHardDisk :=
  let _ := lba
  { d with pos := 0 }

/-- Method ScsiHardDisk::rewind:
`this->hdd_img.seekg(0, this->hdd_img.beg)`. -/
def ScsiHardDisk.rewind (d : ScsiHardDisk) : ScsiHardDisk :=
  { d with pos := 0 }

/-- State carried by an FpOutcome (the guest state at retirement or at
the invocation of the exception routine). -/
def fpOutState : FpOutcome → CpuState
  | FpOutcome.ok s => s
  | FpOutcome.fpexc s => s

/-- Check that an FpOutcome is a normal retirement. -/
def FpOutcome.isOk : FpOutcome → Bool
  | FpOutcome.ok _ => true
  | _ => false

/-- Specification-side FEX invariant: FPSCR[FEX] (bit 30) equals the OR
of the five enabled exception summaries, each exception bit (VX, OX, UX,
ZX, XX at bits 29..25) ANDed with its enable (VE, OE, UE, ZE, XE at bits
7..3).  Written from the spec sentence 'FEX is the OR of enabled
exception summaries', to be compared with the source's update_fex. -/
def FEXinv (f : Nat) : Prop :=
  f.testBit 30 = ((f.testBit 29 && f.testBit 7) ||
                  ((f.testBit 28 && f.testBit 6) ||
                   ((f.testBit 27 && f.testBit 5) ||
                    ((f.testBit 26 && f.testBit 4) ||
                     (f.testBit 25 && f.testBit 3)))))

/-- FPCC derivation contract relating a handler's input state `s` and
output state `t` for a result pattern `resBits`: the class bits of the
result are set in the final FPSCR, and every FPCC bit that was set
before is still set (the handlers OR, they never clear FPCC). -/
def fpccDerived (resBits : Nat) (s t : CpuState) : Prop :=
  fpccOf (interp resBits) &&& t.fpscr = fpccOf (interp resBits) ∧
  (s.fpscr &&& FPSCR_FPCC_MASK) &&& t.fpscr = s.fpscr &&& FPSCR_FPCC_MASK

/-- Constant-zero register file used by concrete evaluation states. -/
def zf : Nat → Nat := fun _ => 0

/-- All-zero CPU state. -/
def stAllZero : CpuState :=
  { gpr := zf, fpr := zf, cr := 0, fpscr := 0, hostRound := RoundMode.nearest }

/-- State with a quiet NaN in FPR1 and the register index elsewhere. -/
def stNaNReg1 : CpuState :=
  { gpr := zf, fpr := fun i => if i = 1 then 0x7FF8000000000000 else i,
    cr := 0, fpscr := 0, hostRound := RoundMode.nearest }

/-- State with 2^31 (out of int32 range) in FPR1. -/
def stTwoPow31Reg1 : CpuState :=
  { gpr := zf, fpr := fun i => if i = 1 then 0x41E0000000000000 else 0,
    cr := 0, fpscr := 0, hostRound := RoundMode.nearest }

/-- State with ZE (zero-divide exception enable) set in FPSCR and +0.0
in every FPR. -/
def stZE : CpuState :=
  { gpr := zf, fpr := zf, cr := 0, fpscr := FPSCR_ZE, hostRound := RoundMode.nearest }

/-- State with a stale FPCC_NEG bit in FPSCR and 1.0 in every FPR. -/
def stStaleNeg : CpuState :=
  { gpr := zf, fpr := fun _ => 0x3FF0000000000000, cr := 0, fpscr := FPCC_NEG,
    hostRound := RoundMode.nearest }

theorem rcWrap_fpscr (rc : Bool) (s : CpuState) : (rcWrap rc s).fpscr = s.fpscr := by
  cases rc <;> rfl

theorem rcWrap_fpr (rc : Bool) (s : CpuState) : (rcWrap rc s).fpr = s.fpr := by
  cases rc <;> rfl

theorem rcWrap_gpr (rc : Bool) (s : CpuState) : (rcWrap rc s).gpr = s.gpr := by
  cases rc <;> rfl

theorem rcWrap_hostRound (rc : Bool) (s : CpuState) :
    (rcWrap rc s).hostRound = s.hostRound := by
  cases rc <;> rfl

theorem upd_same (f : Nat → Nat) (i v : Nat) : upd f i v i = v := by
  simp [upd]

theorem testBit_ffffffff {i : Nat} (hi : i < 32) : (0xFFFFFFFF : Nat).testBit i = true := by
  have h : (0xFFFFFFFF : Nat) = 2 ^ 32 - 1 := by norm_num
  rw [h, Nat.testBit_two_pow_sub_one]
  simpa using hi

theorem testBit_compl32 {m i : Nat} (hi : i < 32) :
    (compl32 m).testBit i = !(m.testBit i) := by
  rw [compl32, Nat.testBit_xor, testBit_ffffffff hi, Bool.true_xor]

theorem testBit_or_false {a b : Nat} {i : Nat} (hb : b.testBit i = false) :
    (a ||| b).testBit i = a.testBit i := by
  rw [Nat.testBit_or, hb, Bool.or_false]

theorem testBit_and_true {a m : Nat} {i : Nat} (hm : m.testBit i = true) :
    (a &&& m).testBit i = a.testBit i := by
  rw [Nat.testBit_and, hm, Bool.and_true]

theorem testBit_and_false {a m : Nat} {i : Nat} (hm : m.testBit i = false) :
    (a &&& m).testBit i = false := by
  rw [Nat.testBit_and, hm, Bool.and_false]

theorem bit_true_ne_zero {y i : Nat} (h : y.testBit i = true) : y ≠ 0 := by
  intro h0
  rw [h0, Nat.zero_testBit] at h
  exact Bool.noConfusion h

theorem subBits_iff {m x : Nat} :
    m &&& x = m ↔ ∀ i, m.testBit i = true → x.testBit i = true := by
  constructor
  · intro h i him
    have h2 : (m &&& x).testBit i = m.testBit i := by rw [h]
    rw [Nat.testBit_and, him, Bool.true_and] at h2
    exact h2
  · intro h
    apply Nat.eq_of_testBit_eq
    intro i
    rw [Nat.testBit_and]
    cases him : m.testBit i
    · simp
    · simp [h i him]

theorem subBits_or_left {m x y : Nat} (h : m &&& x = m) : m &&& (x ||| y) = m := by
  rw [subBits_iff] at h ⊢
  intro i him
  rw [Nat.testBit_or, h i him, Bool.true_or]

theorem subBits_or_right {m x y : Nat} (h : m &&& y = m) : m &&& (x ||| y) = m := by
  rw [subBits_iff] at h ⊢
  intro i him
  rw [Nat.testBit_or, h i him, Bool.or_true]

theorem subBits_trans {m j k : Nat} (h1 : m &&& j = m) (h2 : j &&& k = j) :
    m &&& k = m := by
  rw [subBits_iff] at h1 h2 ⊢
  exact fun i him => h2 i (h1 i him)

theorem subBits_and {m x k : Nat} (h1 : m &&& x = m) (h2 : m &&& k = m) :
    m &&& (x &&& k) = m := by
  rw [subBits_iff] at h1 h2 ⊢
  intro i him
  rw [Nat.testBit_and, h1 i him, h2 i him]
  rfl

theorem and_mask_self (a k : Nat) : (a &&& k) &&& k = a &&& k := by
  rw [Nat.and_assoc, Nat.and_self]

theorem and_mask_left (a k : Nat) : (a &&& k) &&& a = a &&& k := by
  apply Nat.eq_of_testBit_eq
  intro i
  simp only [Nat.testBit_and]
  cases a.testBit i <;> cases k.testBit i <;> rfl

theorem fpGe_nan {a : Fp} (b : Fp) (h : a.isNaN = true) : fpGe a b = false := by
  cases a with
  | nan sn => cases b <;> rfl
  | inf n => exact absurd h (by simp [Fp.isNaN])
  | fin n m d => exact absurd h (by simp [Fp.isNaN])

theorem fpresult_update_eq (r : Fp) (f : Nat) :
    fpresult_update r f = f ||| fpccOf r := by
  unfold fpresult_update fpccOf
  cases hn : r.isNaN
  · simp only [hn, Bool.false_eq_true, if_false]
    split_ifs <;> simp [Nat.or_assoc]
  · simp [hn]

theorem update_fex_keep {m f : Nat} (hm : m &&& FPSCR_FPCC_MASK = m)
    (h : m &&& f = m) : m &&& update_fex f = m := by
  unfold update_fex
  apply subBits_or_left
  apply subBits_and h
  exact subBits_trans hm (by decide)

theorem confirm_keep {m : Nat} (fpop : FPOP) (r1 r2 : Nat) (rc : Bool) (t : CpuState)
    (hm : m &&& FPSCR_FPCC_MASK = m) (h : m &&& t.fpscr = m) :
    m &&& (ppc_confirm_inf_nan fpop r1 r2 rc t).fpscr = m := by
  have h0 : m &&& (t.fpscr &&& 0x7FBFFFFF) = m :=
    subBits_and h (subBits_trans hm (by decide))
  cases fpop <;> simp only [ppc_confirm_inf_nan] <;> split_ifs <;>
    first
    | exact update_fex_keep hm h0
    | exact update_fex_keep hm (subBits_or_left h0)
    | exact update_fex_keep hm (subBits_or_left (subBits_or_left h0))

theorem arith_final_facts (s0 mid : CpuState) (res d : Nat) (rc : Bool)
    (hmid : (s0.fpscr &&& FPSCR_FPCC_MASK) &&& mid.fpscr = s0.fpscr &&& FPSCR_FPCC_MASK) :
    fpccDerived res s0
      (rcWrap rc { mid with fpr := upd mid.fpr d res,
                            fpscr := fpresult_update (interp res) mid.fpscr }) := by
  constructor
  · rw [rcWrap_fpscr]
    show fpccOf (interp res) &&& fpresult_update (interp res) mid.fpscr = _
    rw [fpresult_update_eq]
    exact subBits_or_right (Nat.and_self _)
  · rw [rcWrap_fpscr]
    show (s0.fpscr &&& FPSCR_FPCC_MASK) &&& fpresult_update (interp res) mid.fpscr = _
    rw [fpresult_update_eq]
    exact subBits_or_left hmid

theorem mask3E_bits {i : Nat} :
    (0x3E000000 : Nat).testBit i = true ↔
      i = 25 ∨ i = 26 ∨ i = 27 ∨ i = 28 ∨ i = 29 := by
  constructor
  · intro h
    rcases Nat.lt_or_ge i 30 with hlt | hge
    · interval_cases i <;> first | (exact absurd h (by decide)) | tauto
    · have hsmall : (0x3E000000 : Nat) < 2 ^ i :=
        lt_of_lt_of_le (by norm_num) (Nat.pow_le_pow_right (by norm_num) hge)
      rw [Nat.testBit_lt_two_pow hsmall] at h
      exact Bool.noConfusion h
  · rintro (rfl | rfl | rfl | rfl | rfl) <;> decide

theorem fex_pair_bit {f : Nat} {i : Nat} (h22 : 22 ≤ i) (h32 : i < 32) :
    ((f &&& shl32 f 22)).testBit i = (f.testBit i && f.testBit (i - 22)) := by
  rw [Nat.testBit_and, shl32, Nat.testBit_mod_two_pow, Nat.testBit_shiftLeft]
  simp [h22, h32]

theorem fex_cond_iff (f : Nat) :
    ((f &&& shl32 f 22) &&& 0x3E000000 ≠ 0) ↔
      ((f.testBit 29 && f.testBit 7) ||
       ((f.testBit 28 && f.testBit 6) ||
        ((f.testBit 27 && f.testBit 5) ||
         ((f.testBit 26 && f.testBit 4) ||
          (f.testBit 25 && f.testBit 3))))) = true := by
  constructor
  · intro h
    obtain ⟨i, hi⟩ := Nat.ne_zero_implies_bit_true h
    rw [Nat.testBit_and] at hi
    have hmask : (0x3E000000 : Nat).testBit i = true := (Bool.and_eq_true_iff.mp hi).2
    have hx : (f &&& shl32 f 22).testBit i = true := (Bool.and_eq_true_iff.mp hi).1
    rw [mask3E_bits] at hmask
    rcases hmask with rfl | rfl | rfl | rfl | rfl <;>
      rw [fex_pair_bit (by norm_num) (by norm_num)] at hx <;>
      simp_all
  · intro h
    simp only [Bool.or_eq_true, Bool.and_eq_true] at h
    rcases h with ⟨h1, h2⟩ | ⟨h1, h2⟩ | ⟨h1, h2⟩ | ⟨h1, h2⟩ | ⟨h1, h2⟩
    · refine bit_true_ne_zero (i := 29) ?_
      rw [Nat.testBit_and, fex_pair_bit (by norm_num) (by norm_num)]
      simp_all
      decide
    · refine bit_true_ne_zero (i := 28) ?_
      rw [Nat.testBit_and, fex_pair_bit (by norm_num) (by norm_num)]
      simp_all
      decide
    · refine bit_true_ne_zero (i := 27) ?_
      rw [Nat.testBit_and, fex_pair_bit (by norm_num) (by norm_num)]
      simp_all
      decide
    · refine bit_true_ne_zero (i := 26) ?_
      rw [Nat.testBit_and, fex_pair_bit (by norm_num) (by norm_num)]
      simp_all
      decide
    · refine bit_true_ne_zero (i := 25) ?_
      rw [Nat.testBit_and, fex_pair_bit (by norm_num) (by norm_num)]
      simp_all
      decide

theorem update_fex_bit_other {f : Nat} (fex : Nat) {i : Nat} (hlt : i < 30) :
    ((f &&& compl32 0x40000000) ||| (fex <<< 30)).testBit i = f.testBit i := by
  rw [Nat.testBit_or, Nat.testBit_shiftLeft]
  have h30 : ¬ 30 ≤ i := by omega
  simp only [h30, decide_False, Bool.false_and, Bool.or_false]
  apply testBit_and_true
  rw [testBit_compl32 (by omega)]
  have he : (0x40000000 : Nat) = 2 ^ 30 := by norm_num
  rw [he, Nat.testBit_two_pow, decide_eq_false (by omega)]
  rfl

theorem update_fex_bit_30 {f : Nat} (fex : Nat) :
    ((f &&& compl32 0x40000000) ||| (fex <<< 30)).testBit 30 = fex.testBit 0 := by
  rw [Nat.testBit_or, Nat.testBit_shiftLeft]
  have hz : (f &&& compl32 0x40000000).testBit 30 = false := by
    apply testBit_and_false
    rw [testBit_compl32 (by omega)]
    have he : (0x40000000 : Nat) = 2 ^ 30 := by norm_num
    rw [he, Nat.testBit_two_pow]
    simp
  rw [hz]
  simp

theorem FEXinv_update_fex (f : Nat) : FEXinv (update_fex f) := by
  unfold update_fex FEXinv
  by_cases hc : (f &&& shl32 f 22) &&& 0x3E000000 ≠ 0
  · rw [if_pos hc]
    rw [update_fex_bit_30,
        update_fex_bit_other 1 (by omega), update_fex_bit_other 1 (by omega),
        update_fex_bit_other 1 (by omega), update_fex_bit_other 1 (by omega),
        update_fex_bit_other 1 (by omega), update_fex_bit_other 1 (by omega),
        update_fex_bit_other 1 (by omega), update_fex_bit_other 1 (by omega),
        update_fex_bit_other 1 (by omega), update_fex_bit_other 1 (by omega)]
    rw [(fex_cond_iff f).mp hc]
    rfl
  · rw [if_neg hc]
    rw [update_fex_bit_30,
        update_fex_bit_other 0 (by omega), update_fex_bit_other 0 (by omega),
        update_fex_bit_other 0 (by omega), update_fex_bit_other 0 (by omega),
        update_fex_bit_other 0 (by omega), update_fex_bit_other 0 (by omega),
        update_fex_bit_other 0 (by omega), update_fex_bit_other 0 (by omega),
        update_fex_bit_other 0 (by omega), update_fex_bit_other 0 (by omega)]
    have hb : ((f.testBit 29 && f.testBit 7) ||
       ((f.testBit 28 && f.testBit 6) ||
        ((f.testBit 27 && f.testBit 5) ||
         ((f.testBit 26 && f.testBit 4) ||
          (f.testBit 25 && f.testBit 3))))) = false := by
      cases hb2 : ((f.testBit 29 && f.testBit 7) ||
       ((f.testBit 28 && f.testBit 6) ||
        ((f.testBit 27 && f.testBit 5) ||
         ((f.testBit 26 && f.testBit 4) ||
          (f.testBit 25 && f.testBit 3)))))
      · rfl
      · exact absurd ((fex_cond_iff f).mpr hb2) hc
    rw [hb]
    rfl

theorem merge32_testBit {a b m : Nat} {i : Nat} (hi : i < 32) (hm : m.testBit i = false) :
    ((a &&& compl32 m) ||| (b &&& m)).testBit i = a.testBit i := by
  rw [Nat.testBit_or, Nat.testBit_and, Nat.testBit_and, testBit_compl32 hi, hm]
  simp

/-- C8 counterexample: the read-only levels2 register of the MacIO
interrupt controllers lives at offset 0x1C, not 0x18 as the claim
states; 0x18 is the clear2 register. -/
theorem levels2_offset_not_0x18 : MIO_INT_LEVELS2 ≠ 0x18 := by
  decide

/-- C8 (amended): in the guest-visible register layout of the MacIO
interrupt controllers, levels2 is at offset 0x1C (0x18 being clear2),
with events2 at 0x10, mask2 at 0x14, events1 at 0x20, mask1 at 0x24 and
levels1 at 0x2C. -/
theorem macio_int_register_offsets :
    MIO_INT_LEVELS2 = 0x1C ∧ MIO_INT_CLEAR2 = 0x18 ∧ MIO_INT_EVENTS2 = 0x10 ∧
    MIO_INT_MASK2 = 0x14 ∧ MIO_INT_EVENTS1 = 0x20 ∧ MIO_INT_MASK1 = 0x24 ∧
    MIO_INT_LEVELS1 = 0x2C := by
  refine ⟨rfl, rfl, rfl, rfl, rfl, rfl, rfl⟩

/-- C9: ScsiHardDisk::seek positions the disk-image stream at byte
offset 0 for every logical block address, ignoring the lba entirely,
and its effect on the device state is identical to
ScsiHardDisk::rewind. -/
theorem scsi_seek_ignores_lba :
    ∀ (d : ScsiHardDisk) (lba lba2 : Nat),
      d.seek lba = d.rewind ∧ (d.seek lba).pos = 0 ∧ d.seek lba = d.seek lba2 := by
  intro d lba lba2
  exact ⟨rfl, rfl, rfl⟩

/-- C10: the FPSCR move handlers mtfsf, mtfsfi, mtfsb0 and mtfsb1 never
change FPSCR[FEX] (bit 30) or FPSCR[VX] (bit 29), for every operand,
field mask and bit index, even when the mask or index names those
bits. -/
theorem mtfs_preserve_fex_vx :
    ∀ (instr : Nat) (rc : Bool) (s : CpuState),
      (ppc_mtfsf instr rc s).fpscr.testBit 30 = s.fpscr.testBit 30 ∧
      (ppc_mtfsf instr rc s).fpscr.testBit 29 = s.fpscr.testBit 29 ∧
      (ppc_mtfsfi instr rc s).fpscr.testBit 30 = s.fpscr.testBit 30 ∧
      (ppc_mtfsfi instr rc s).fpscr.testBit 29 = s.fpscr.testBit 29 ∧
      (ppc_mtfsb0 instr rc s).fpscr.testBit 30 = s.fpscr.testBit 30 ∧
      (ppc_mtfsb0 instr rc s).fpscr.testBit 29 = s.fpscr.testBit 29 ∧
      (ppc_mtfsb1 instr rc s).fpscr.testBit 30 = s.fpscr.testBit 30 ∧
      (ppc_mtfsb1 instr rc s).fpscr.testBit 29 = s.fpscr.testBit 29 := by
  intro instr rc s
  have hd30 : (compl32 (FPSCR_FEX ||| FPSCR_VX)).testBit 30 = false := by decide
  have hd29 : (compl32 (FPSCR_FEX ||| FPSCR_VX)).testBit 29 = false := by decide
  have hb0 : ∀ i, i < 32 → i ≠ 31 - ((instr >>> 21) &&& 0x1F) →
      ((0x80000000 : Nat) >>> ((instr >>> 21) &&& 0x1F)).testBit i = false := by
    intro i hi hne
    rw [Nat.testBit_shiftRight]
    have h31 : (0x80000000 : Nat) = 2 ^ 31 := by norm_num
    have hle : (instr >>> 21) &&& 0x1F ≤ 31 := Nat.and_le_right
    rw [h31, Nat.testBit_two_pow]
    apply decide_eq_false
    omega
  refine ⟨?_, ?_, ?_, ?_, ?_, ?_, ?_, ?_⟩
  · unfold ppc_mtfsf
    rw [rcWrap_fpscr]
    exact merge32_testBit (by omega) (testBit_and_false hd30)
  · unfold ppc_mtfsf
    rw [rcWrap_fpscr]
    exact merge32_testBit (by omega) (testBit_and_false hd29)
  · unfold ppc_mtfsfi
    rw [rcWrap_fpscr]
    exact merge32_testBit (by omega) (testBit_and_false hd30)
  · unfold ppc_mtfsfi
    rw [rcWrap_fpscr]
    exact merge32_testBit (by omega) (testBit_and_false hd29)
  · unfold ppc_mtfsb0
    rw [rcWrap_fpscr]
    split_ifs with hg
    · apply testBit_and_true
      rw [testBit_compl32 (by omega)]
      rw [hb0 30 (by omega) (by omega)]
      rfl
    · rfl
  · unfold ppc_mtfsb0
    rw [rcWrap_fpscr]
    split_ifs with hg
    · apply testBit_and_true
      rw [testBit_compl32 (by omega)]
      rw [hb0 29 (by omega) (by omega)]
      rfl
    · rfl
  · unfold ppc_mtfsb1
    rw [rcWrap_fpscr]
    split_ifs with hg
    · exact testBit_or_false (hb0 30 (by omega) (by omega))
    · rfl
  · unfold ppc_mtfsb1
    rw [rcWrap_fpscr]
    split_ifs with hg
    · exact testBit_or_false (hb0 29 (by omega) (by omega))
    · rfl

/-- C7 (amended): update_fpscr re-synchronises the host FPU rounding
mode whenever it changes FPSCR[RN] (so it preserves the host-mode = RN
invariant), but the FPSCR move handlers mtfsf, mtfsfi, mtfsb0 and
mtfsb1 write FPSCR directly and never touch the host rounding mode, so
after them the host mode need not match the new RN value (see the
counterexample). -/
theorem rounding_mode_sync :
    (∀ (newf : Nat) (s : CpuState),
        s.hostRound = rmOf (s.fpscr &&& FPSCR_RN_MASK) →
        (update_fpscr newf s).hostRound =
          rmOf ((update_fpscr newf s).fpscr &&& FPSCR_RN_MASK)) ∧
    (∀ (instr : Nat) (rc : Bool) (s : CpuState),
        (ppc_mtfsf instr rc s).hostRound = s.hostRound ∧
        (ppc_mtfsfi instr rc s).hostRound = s.hostRound ∧
        (ppc_mtfsb0 instr rc s).hostRound = s.hostRound ∧
        (ppc_mtfsb1 instr rc s).hostRound = s.hostRound) := by
  constructor
  · intro newf s hinv
    unfold update_fpscr
    split_ifs with h
    · show (set_host_rounding_mode (newf &&& FPSCR_RN_MASK) s).hostRound =
        rmOf (newf &&& FPSCR_RN_MASK)
      unfold set_host_rounding_mode
      show rmOf ((newf &&& FPSCR_RN_MASK) &&& FPSCR_RN_MASK) = _
      rw [and_mask_self]
    · show s.hostRound = rmOf (newf &&& FPSCR_RN_MASK)
      rw [hinv, not_ne_iff.mp h]
  · intro instr rc s
    refine ⟨?_, ?_, ?_, ?_⟩
    · unfold ppc_mtfsf
      rw [rcWrap_hostRound]
    · unfold ppc_mtfsfi
      rw [rcWrap_hostRound]
    · unfold ppc_mtfsb0
      rw [rcWrap_hostRound]
      split_ifs <;> rfl
    · unfold ppc_mtfsb1
      rw [rcWrap_hostRound]
      split_ifs <;> rfl

/-- C7 witness: update_fpscr applied to FPSCR value 3 from the all-zero
state re-synchronises the host rounding mode as the theorem states. -/
theorem rounding_mode_sync_witness :
    stAllZero.hostRound = rmOf (stAllZero.fpscr &&& FPSCR_RN_MASK) ∧
    (update_fpscr 3 stAllZero).hostRound =
      rmOf ((update_fpscr 3 stAllZero).fpscr &&& FPSCR_RN_MASK) :=
  ⟨by decide, rounding_mode_sync.1 3 stAllZero (by decide)⟩

/-- C7 counterexample: ppc_mtfsb1 with bit index 31 changes FPSCR[RN]
from 00 (nearest) to 01 (toward zero) but leaves the host FPU rounding
mode at nearest-even, so the claim that every RN update re-establishes
the host mode before the next FP operation is false for the FPSCR move
instructions. -/
theorem mtfsb1_stale_host_rounding :
    (ppc_mtfsb1 0x3E00000 false stAllZero).fpscr &&& FPSCR_RN_MASK = 1 ∧
    (ppc_mtfsb1 0x3E00000 false stAllZero).hostRound = RoundMode.nearest ∧
    rmOf ((ppc_mtfsb1 0x3E00000 false stAllZero).fpscr &&& FPSCR_RN_MASK) ≠
      RoundMode.nearest := by
  refine ⟨by decide, by decide, by decide⟩

/-- C3 (amended): update_fex re-establishes the equality FPSCR[FEX] =
OR of the five enabled exception summaries (each exception bit ANDed
with its enable), and therefore so does every handler path that goes
through ppc_confirm_inf_nan, which ends in update_fex; ppc_fres,
however, sets ZX or VXSNAN without recomputing FEX, so the claim's
'every handler' is refuted by the counterexample. -/
theorem fex_or_of_enabled_summaries :
    (∀ f : Nat, FEXinv (update_fex f)) ∧
    (∀ (fpop : FPOP) (r1 r2 : Nat) (rc : Bool) (s : CpuState),
        FEXinv ((ppc_confirm_inf_nan fpop r1 r2 rc s).fpscr)) := by
  refine ⟨FEXinv_update_fex, ?_⟩
  intro fpop r1 r2 rc s
  cases fpop <;> exact FEXinv_update_fex _

/-- C3 counterexample: from a state satisfying the FEX invariant (only
ZE set in FPSCR), ppc_fres on the +0.0 operand in FPR1 sets ZX but does
not recompute FEX, leaving FEX clear while ZX AND ZE holds — the
invariant is broken.  The host-estimate parameter returns the +infinity
pattern, as `(float)(1.0 / 0.0)` does. -/
theorem fres_leaves_fex_stale :
    FEXinv stZE.fpscr ∧
    ¬ FEXinv ((ppc_fres (fun _ => 0x7FF0000000000000) 0x800 false stZE).fpscr) := by
  constructor
  · unfold FEXinv
    decide
  · unfold FEXinv
    decide

/-- C5: fsel writes frC to frD when frA >= -0.0 and frB otherwise — in
particular frB for a NaN frA, since an IEEE comparison with a NaN is
false — leaves FPSCR completely unchanged (so no VX cause bit can ever
be set) and touches no GPR; the handler has no exception path. -/
theorem fsel_never_faults :
    ∀ (instr : Nat) (rc : Bool) (s : CpuState),
      (ppc_fsel instr rc s).fpscr = s.fpscr ∧
      (ppc_fsel instr rc s).gpr = s.gpr ∧
      (ppc_fsel instr rc s).fpr (regD instr) =
        (if fpGe (interp (s.fpr (regA instr))) (Fp.fin true 0 0) then s.fpr (regC instr)
         else s.fpr (regB instr)) ∧
      ((interp (s.fpr (regA instr))).isNaN = true →
        (ppc_fsel instr rc s).fpr (regD instr) = s.fpr (regB instr)) := by
  intro instr rc s
  unfold ppc_fsel
  refine ⟨by rw [rcWrap_fpscr], by rw [rcWrap_gpr], ?_, ?_⟩
  · rw [rcWrap_fpr]
    exact upd_same _ _ _
  · intro h
    rw [rcWrap_fpr]
    show upd s.fpr (regD instr) _ (regD instr) = _
    rw [upd_same, fpGe_nan _ h]
    simp

/-- C5 witness: fsel with a quiet-NaN frA selects frB and leaves FPSCR
unchanged on a concrete state. -/
theorem fsel_never_faults_witness :
    (interp (stNaNReg1.fpr (regA 0x110C0))).isNaN = true ∧
    (ppc_fsel 0x110C0 false stNaNReg1).fpr (regD 0x110C0) =
      stNaNReg1.fpr (regB 0x110C0) ∧
    (ppc_fsel 0x110C0 false stNaNReg1).fpscr = stNaNReg1.fpscr :=
  ⟨by decide, (fsel_never_faults 0x110C0 false stNaNReg1).2.2.2 (by decide),
   (fsel_never_faults 0x110C0 false stNaNReg1).1⟩

/-- C6 (amended): when either fcmpo operand is a NaN, the FPCC field is
set to the unordered outcome (FU) and the chosen CR field receives the
unordered nibble, while FX (bit 31), VXVC (bit 19) and VXSNAN (bit 24)
are left unchanged: the handler sets no invalid-operation cause bits at
all. -/
theorem fcmpo_nan_unordered_only (instr : Nat) (s : CpuState)
    (h : (interp (s.fpr (regA instr))).isNaN = true ∨
         (interp (s.fpr (regB instr))).isNaN = true) :
    (ppc_fcmpo instr s).fpscr =
      (s.fpscr &&& compl32 FPSCR_FPCC_MASK) ||| FPCC_FUNAN ∧
    (ppc_fcmpo instr s).fpscr.testBit 31 = s.fpscr.testBit 31 ∧
    (ppc_fcmpo instr s).fpscr.testBit 19 = s.fpscr.testBit 19 ∧
    (ppc_fcmpo instr s).fpscr.testBit 24 = s.fpscr.testBit 24 ∧
    (ppc_fcmpo instr s).cr =
      (s.cr &&& compl32 (0xF0000000 >>> ((instr >>> 21) &&& 0x1C))) |||
        (CR_SO >>> ((instr >>> 21) &&& 0x1C)) := by
  have hc : ((interp (s.fpr (regA instr))).isNaN ||
             (interp (s.fpr (regB instr))).isNaN) = true := by
    rcases h with h | h <;> simp [h]
  have hfp : (ppc_fcmpo instr s).fpscr =
      (s.fpscr &&& compl32 FPSCR_FPCC_MASK) ||| FPCC_FUNAN := by
    unfold ppc_fcmpo
    simp only [hc, if_true]
    rfl
  have hcr : (ppc_fcmpo instr s).cr =
      (s.cr &&& compl32 (0xF0000000 >>> ((instr >>> 21) &&& 0x1C))) |||
        (CR_SO >>> ((instr >>> 21) &&& 0x1C)) := by
    unfold ppc_fcmpo
    simp only [hc, if_true]
  refine ⟨hfp, ?_, ?_, ?_, hcr⟩
  · rw [hfp, testBit_or_false (by decide), testBit_and_true (by decide)]
  · rw [hfp, testBit_or_false (by decide), testBit_and_true (by decide)]
  · rw [hfp, testBit_or_false (by decide), testBit_and_true (by decide)]

/-- C6 witness: fcmpo on a quiet NaN in frA records the unordered FPCC
and touches nothing else of FPSCR on a concrete state. -/
theorem fcmpo_nan_unordered_only_witness :
    (interp (stNaNReg1.fpr (regA 0x11000))).isNaN = true ∧
    (ppc_fcmpo 0x11000 stNaNReg1).fpscr =
      (stNaNReg1.fpscr &&& compl32 FPSCR_FPCC_MASK) ||| FPCC_FUNAN :=
  ⟨by decide, (fcmpo_nan_unordered_only 0x11000 stNaNReg1 (Or.inl (by decide))).1⟩

/-- C6 counterexample: comparing a quiet NaN with fcmpo sets neither
FPSCR[FX] nor the VXVC cause bit — the final FPSCR is exactly the
unordered FPCC nibble — contradicting the claim that fcmpo on NaN
operands sets FX and VXVC. -/
theorem fcmpo_nan_no_cause_bits :
    (ppc_fcmpo 0x11000 stNaNReg1).fpscr.testBit 31 = false ∧
    (ppc_fcmpo 0x11000 stNaNReg1).fpscr.testBit 19 = false ∧
    (ppc_fcmpo 0x11000 stNaNReg1).fpscr = 0x1000 := by
  refine ⟨by decide, by decide, by decide⟩

/-- C1: every update-form floating-point load or store (lfsu, lfsux,
lfdu, lfdux, stfsu, stfsux, stfdu, stfdux) whose rA field is 0 raises
the illegal-instruction program exception and does nothing else: the
outcome carries the unchanged guest state, no FPR or GPR write, and no
memory access. -/
theorem update_form_rA0_illegal
    (m32 m64 f32ext f64to32 : Nat → Nat) (instr : Nat) (s : CpuState)
    (h : regA instr = 0) :
    ppc_lfsu m32 f32ext instr s =
      MemOutcome.excep Except_Type.EXC_PROGRAM Exc_Cause.ILLEGAL_OP s ∧
    ppc_lfsux m32 f32ext instr s =
      MemOutcome.excep Except_Type.EXC_PROGRAM Exc_Cause.ILLEGAL_OP s ∧
    ppc_lfdu m64 instr s =
      MemOutcome.excep Except_Type.EXC_PROGRAM Exc_Cause.ILLEGAL_OP s ∧
    ppc_lfdux m64 instr s =
      MemOutcome.excep Except_Type.EXC_PROGRAM Exc_Cause.ILLEGAL_OP s ∧
    ppc_stfsu f64to32 instr s =
      MemOutcome.excep Except_Type.EXC_PROGRAM Exc_Cause.ILLEGAL_OP s ∧
    ppc_stfsux f64to32 instr s =
      MemOutcome.excep Except_Type.EXC_PROGRAM Exc_Cause.ILLEGAL_OP s ∧
    ppc_stfdu instr s =
      MemOutcome.excep Except_Type.EXC_PROGRAM Exc_Cause.ILLEGAL_OP s ∧
    ppc_stfdux instr s =
      MemOutcome.excep Except_Type.EXC_PROGRAM Exc_Cause.ILLEGAL_OP s := by
  unfold ppc_lfsu ppc_lfsux ppc_lfdu ppc_lfdux ppc_stfsu ppc_stfsux ppc_stfdu ppc_stfdux
  simp [h]

/-- C1 witness: the zero instruction word (rA field 0) makes each
update-form handler raise the illegal-op program exception from the
all-zero state, shown here for lfsu and stfdu. -/
theorem update_form_rA0_illegal_witness :
    regA 0 = 0 ∧
    ppc_lfsu zf zf 0 stAllZero =
      MemOutcome.excep Except_Type.EXC_PROGRAM Exc_Cause.ILLEGAL_OP stAllZero ∧
    ppc_stfdu 0 stAllZero =
      MemOutcome.excep Except_Type.EXC_PROGRAM Exc_Cause.ILLEGAL_OP stAllZero :=
  ⟨rfl, (update_form_rA0_illegal zf zf zf zf 0 stAllZero rfl).1,
   (update_form_rA0_illegal zf zf zf zf 0 stAllZero rfl).2.2.2.2.2.2.1⟩

theorem and_pow_two_eq_zero {f i : Nat} (h : f.testBit i = false) : f &&& 2 ^ i = 0 := by
  apply Nat.eq_of_testBit_eq
  intro j
  rw [Nat.testBit_and, Nat.testBit_two_pow, Nat.zero_testBit]
  by_cases hj : i = j
  · subst hj
    rw [h]
    rfl
  · rw [decide_eq_false hj, Bool.and_false]

theorem testBit_or_true_right {a b : Nat} {i : Nat} (hb : b.testBit i = true) :
    (a ||| b).testBit i = true := by
  rw [Nat.testBit_or, hb, Bool.or_true]

/-- C2 (amended): with the invalid-operation exception disabled
(FPSCR[VE] = 0), fctiwz on a NaN or out-of-int32-range operand retires
normally, writes the saturating sentinel 0x7FFFFFFF (operand >= 0) or
0x80000000 (negative or NaN operand) into the low 32 bits of frD with
0xFFF80000 in the high 32 bits, and sets FPSCR[VX] and FPSCR[VXCVI];
FPSCR[FX] is left unchanged (the claim's FX is not set — see the
counterexample). -/
theorem fctiwz_saturating (instr : Nat) (rc : Bool) (s : CpuState)
    (hVE : s.fpscr.testBit 7 = false)
    (hdom : (interp (s.fpr (regB instr))).isNaN = true ∨
            fpGt (interp (s.fpr (regB instr))) (Fp.fin false 2147483647 0) = true ∨
            fpLt (interp (s.fpr (regB instr))) (Fp.fin true 2147483648 0) = true) :
    (ppc_fctiwz instr rc s).isOk = true ∧
    (fpOutState (ppc_fctiwz instr rc s)).fpr (regD instr) =
      (if fpGe (interp (s.fpr (regB instr))) (Fp.fin false 0 0) then 0xFFF800007FFFFFFF
       else 0xFFF8000080000000) ∧
    (fpOutState (ppc_fctiwz instr rc s)).fpscr.testBit 29 = true ∧
    (fpOutState (ppc_fctiwz instr rc s)).fpscr.testBit 8 = true ∧
    (fpOutState (ppc_fctiwz instr rc s)).fpscr.testBit 31 = s.fpscr.testBit 31 := by
  have hf1b7 : ((s.fpscr &&& compl32 (FPSCR_FR ||| FPSCR_FI)) |||
      (FPSCR_VXCVI ||| FPSCR_VX)).testBit 7 = false := by
    rw [testBit_or_false (by decide), testBit_and_true (by decide)]
    exact hVE
  have hveq : FPSCR_VE = 2 ^ 7 := by decide
  unfold ppc_fctiwz round_to_int
  by_cases hnan : (interp (s.fpr (regB instr))).isNaN = true
  · simp only [hnan, if_true]
    have hf2b7 : (if !(s.fpr (regB instr)).testBit 51 then
        ((s.fpscr &&& compl32 (FPSCR_FR ||| FPSCR_FI)) |||
          (FPSCR_VXCVI ||| FPSCR_VX)) ||| FPSCR_VXSNAN
      else
        (s.fpscr &&& compl32 (FPSCR_FR ||| FPSCR_FI)) |||
          (FPSCR_VXCVI ||| FPSCR_VX)).testBit 7 = false := by
      split_ifs
      · rw [testBit_or_false (by decide)]
        exact hf1b7
      · exact hf1b7
    have hVE0 : ¬ ((if !(s.fpr (regB instr)).testBit 51 then
        ((s.fpscr &&& compl32 (FPSCR_FR ||| FPSCR_FI)) |||
          (FPSCR_VXCVI ||| FPSCR_VX)) ||| FPSCR_VXSNAN
      else
        (s.fpscr &&& compl32 (FPSCR_FR ||| FPSCR_FI)) |||
          (FPSCR_VXCVI ||| FPSCR_VX)) &&& FPSCR_VE ≠ 0) := by
      rw [hveq]
      exact not_ne_iff.mpr (and_pow_two_eq_zero hf2b7)
    rw [if_neg hVE0]
    refine ⟨rfl, ?_, ?_, ?_, ?_⟩
    · show (rcWrap rc _).fpr (regD instr) = _
      rw [rcWrap_fpr]
      show upd s.fpr (regD instr) _ (regD instr) = _
      rw [upd_same, fpGe_nan _ hnan]
      simp
    · show (rcWrap rc _).fpscr.testBit 29 = true
      rw [rcWrap_fpscr]
      show (if !(s.fpr (regB instr)).testBit 51 then _ else _ : Nat).testBit 29 = true
      split_ifs
      · rw [testBit_or_false (by decide)]
        exact testBit_or_true_right (by decide)
      · exact testBit_or_true_right (by decide)
    · show (rcWrap rc _).fpscr.testBit 8 = true
      rw [rcWrap_fpscr]
      show (if !(s.fpr (regB instr)).testBit 51 then _ else _ : Nat).testBit 8 = true
      split_ifs
      · rw [testBit_or_false (by decide)]
        exact testBit_or_true_right (by decide)
      · exact testBit_or_true_right (by decide)
    · show (rcWrap rc _).fpscr.testBit 31 = s.fpscr.testBit 31
      rw [rcWrap_fpscr]
      show (if !(s.fpr (regB instr)).testBit 51 then _ else _ : Nat).testBit 31 = _
      split_ifs
      · rw [testBit_or_false (by decide), testBit_or_false (by decide),
            testBit_and_true (by decide)]
      · rw [testBit_or_false (by decide), testBit_and_true (by decide)]
  · have hnan' : (interp (s.fpr (regB instr))).isNaN = false :=
      Bool.not_eq_true _ ▸ (by simpa using hnan)
    rw [if_neg hnan]
    have hcond : (fpGt (interp (s.fpr (regB instr))) (Fp.fin false 2147483647 0) ||
        fpLt (interp (s.fpr (regB instr))) (Fp.fin true 2147483648 0)) = true := by
      rcases hdom with hn | hgt | hlt
      · exact absurd hn hnan
      · simp [hgt]
      · simp [hlt]
    simp only [hcond, if_true]
    have hVE1 : ¬ (((s.fpscr &&& compl32 (FPSCR_FR ||| FPSCR_FI)) |||
        (FPSCR_VXCVI ||| FPSCR_VX)) &&& FPSCR_VE ≠ 0) := by
      rw [hveq]
      exact not_ne_iff.mpr (and_pow_two_eq_zero hf1b7)
    rw [if_neg hVE1]
    refine ⟨rfl, ?_, ?_, ?_, ?_⟩
    · show (rcWrap rc _).fpr (regD instr) = _
      rw [rcWrap_fpr]
      show upd s.fpr (regD instr) _ (regD instr) = _
      rw [upd_same]
    · show (rcWrap rc _).fpscr.testBit 29 = true
      rw [rcWrap_fpscr]
      exact testBit_or_true_right (by decide)
    · show (rcWrap rc _).fpscr.testBit 8 = true
      rw [rcWrap_fpscr]
      exact testBit_or_true_right (by decide)
    · show (rcWrap rc _).fpscr.testBit 31 = s.fpscr.testBit 31
      rw [rcWrap_fpscr]
      rw [testBit_or_false (by decide), testBit_and_true (by decide)]

/-- C2 witness: frB = 2^31 (just out of int32 range) with FPSCR clear
retires with the positive sentinel in frD. -/
theorem fctiwz_saturating_witness :
    stTwoPow31Reg1.fpscr.testBit 7 = false ∧
    fpGt (interp (stTwoPow31Reg1.fpr (regB 0x800))) (Fp.fin false 2147483647 0) = true ∧
    (ppc_fctiwz 0x800 false stTwoPow31Reg1).isOk = true ∧
    (fpOutState (ppc_fctiwz 0x800 false stTwoPow31Reg1)).fpr (regD 0x800) =
      0xFFF800007FFFFFFF := by
  have h := fctiwz_saturating 0x800 false stTwoPow31Reg1 (by decide)
    (Or.inr (Or.inl (by decide)))
  refine ⟨by decide, by decide, h.1, ?_⟩
  rw [h.2.1]
  decide

/-- C2 counterexample: on the out-of-range operand 2^31 with every FPSCR
bit clear, fctiwz writes the sentinel and sets VX and VXCVI but leaves
FX (bit 31) clear, refuting the claim that FX is set. -/
theorem fctiwz_no_fx :
    (fpOutState (ppc_fctiwz 0x800 false stTwoPow31Reg1)).fpscr.testBit 31 = false ∧
    (fpOutState (ppc_fctiwz 0x800 false stTwoPow31Reg1)).fpscr.testBit 29 = true ∧
    (fpOutState (ppc_fctiwz 0x800 false stTwoPow31Reg1)).fpscr.testBit 8 = true ∧
    (fpOutState (ppc_fctiwz 0x800 false stTwoPow31Reg1)).fpr 0 = 0xFFF800007FFFFFFF := by
  refine ⟨by decide, by decide, by decide, by decide⟩

theorem if_state_keep {m : Nat} {c : Prop} [Decidable c] {t u : CpuState}
    (ht : m &&& t.fpscr = m) (hu : m &&& u.fpscr = m) :
    m &&& (if c then t else u).fpscr = m := by
  split_ifs
  · exact ht
  · exact hu

/-- C4 (amended): every FP arithmetic handler (fadd, fsub, fmul, fdiv,
the fma family and the single-precision variants) derives FPCC from the
stored result by ORing the class bits into FPSCR without first clearing
FPCC: afterwards the bit matching the result's class (QNaN gives FU
with the C bit, a positive result FG, a negative result FL, zero FE,
and an infinity additionally FU) is set, and every FPCC bit set before
the instruction is still set; 'exactly the matching condition bit is
set' fails when stale FPCC bits were present, as the counterexample
shows. -/
theorem fp_arith_fpcc_or_derived :
    ∀ (op2 : Nat → Nat → Nat) (op3 : Nat → Nat → Nat → Nat)
      (instr : Nat) (rc : Bool) (s : CpuState),
      fpccDerived (op2 (s.fpr (regA instr)) (s.fpr (regB instr))) s
        (ppc_fadd op2 instr rc s) ∧
      fpccDerived (op2 (s.fpr (regA instr)) (s.fpr (regB instr))) s
        (ppc_fsub op2 instr rc s) ∧
      fpccDerived (op2 (s.fpr (regA instr)) (s.fpr (regB instr))) s
        (ppc_fdiv op2 instr rc s) ∧
      fpccDerived (op2 (s.fpr (regA instr)) (s.fpr (regC instr))) s
        (ppc_fmul op2 instr rc s) ∧
      fpccDerived (op3 (s.fpr (regA instr)) (s.fpr (regC instr)) (s.fpr (regB instr))) s
        (ppc_fmadd op3 instr rc s) ∧
      fpccDerived (op3 (s.fpr (regA instr)) (s.fpr (regC instr))
          (negBits (s.fpr (regB instr)))) s
        (ppc_fmsub op3 instr rc s) ∧
      fpccDerived (negBits (op3 (s.fpr (regA instr)) (s.fpr (regC instr))
          (s.fpr (regB instr)))) s
        (ppc_fnmadd op3 instr rc s) ∧
      fpccDerived (op3 (negBits (s.fpr (regA instr))) (s.fpr (regC instr))
          (s.fpr (regB instr))) s
        (ppc_fnmsub op3 instr rc s) ∧
      fpccDerived (op2 (s.fpr (regA instr)) (s.fpr (regB instr))) s
        (ppc_fadds op2 instr rc s) ∧
      fpccDerived (op2 (s.fpr (regA instr)) (s.fpr (regB instr))) s
        (ppc_fsubs op2 instr rc s) ∧
      fpccDerived (op2 (s.fpr (regA instr)) (s.fpr (regB instr))) s
        (ppc_fdivs op2 instr rc s) ∧
      fpccDerived (op2 (s.fpr (regA instr)) (s.fpr (regC instr))) s
        (ppc_fmuls op2 instr rc s) ∧
      fpccDerived (op3 (s.fpr (regA instr)) (s.fpr (regC instr)) (s.fpr (regB instr))) s
        (ppc_fmadds op3 instr rc s) ∧
      fpccDerived (op3 (s.fpr (regA instr)) (s.fpr (regC instr))
          (negBits (s.fpr (regB instr)))) s
        (ppc_fmsubs op3 instr rc s) ∧
      fpccDerived (negBits (op3 (s.fpr (regA instr)) (s.fpr (regC instr))
          (s.fpr (regB instr)))) s
        (ppc_fnmadds op3 instr rc s) ∧
      fpccDerived (op3 (negBits (s.fpr (regA instr))) (s.fpr (regC instr))
          (s.fpr (regB instr))) s
        (ppc_fnmsubs op3 instr rc s) := by
  intro op2 op3 instr rc s
  have hm : (s.fpscr &&& FPSCR_FPCC_MASK) &&& FPSCR_FPCC_MASK =
      s.fpscr &&& FPSCR_FPCC_MASK := and_mask_self _ _
  have hself : (s.fpscr &&& FPSCR_FPCC_MASK) &&& s.fpscr =
      s.fpscr &&& FPSCR_FPCC_MASK := and_mask_left _ _
  refine ⟨?_, ?_, ?_, ?_, ?_, ?_, ?_, ?_, ?_, ?_, ?_, ?_, ?_, ?_, ?_, ?_⟩
  · unfold ppc_fadd
    exact arith_final_facts s _ _ _ rc
      (if_state_keep (confirm_keep _ _ _ _ _ hm (subBits_or_left hself)) hself)
  · unfold ppc_fsub
    exact arith_final_facts s _ _ _ rc
      (if_state_keep (confirm_keep _ _ _ _ _ hm (subBits_or_left hself)) hself)
  · unfold ppc_fdiv
    exact arith_final_facts s _ _ _ rc
      (if_state_keep (confirm_keep _ _ _ _ _ hm hself) hself)
  · unfold ppc_fmul
    exact arith_final_facts s _ _ _ rc
      (if_state_keep (confirm_keep _ _ _ _ _ hm hself) hself)
  · unfold ppc_fmadd
    exact arith_final_facts s _ _ _ rc
      (if_state_keep
        (confirm_keep _ _ _ _ _ hm
          (if_state_keep (confirm_keep _ _ _ _ _ hm hself) hself))
        (if_state_keep (confirm_keep _ _ _ _ _ hm hself) hself))
  · unfold ppc_fmsub
    exact arith_final_facts s _ _ _ rc
      (if_state_keep
        (confirm_keep _ _ _ _ _ hm
          (if_state_keep (confirm_keep _ _ _ _ _ hm hself) hself))
        (if_state_keep (confirm_keep _ _ _ _ _ hm hself) hself))
  · unfold ppc_fnmadd
    exact arith_final_facts s _ _ _ rc
      (if_state_keep
        (confirm_keep _ _ _ _ _ hm
          (if_state_keep (confirm_keep _ _ _ _ _ hm hself) hself))
        (if_state_keep (confirm_keep _ _ _ _ _ hm hself) hself))
  · unfold ppc_fnmsub
    exact arith_final_facts s _ _ _ rc
      (if_state_keep
        (confirm_keep _ _ _ _ _ hm
          (if_state_keep (confirm_keep _ _ _ _ _ hm hself) hself))
        (if_state_keep (confirm_keep _ _ _ _ _ hm hself) hself))
  · unfold ppc_fadds
    exact arith_final_facts s _ _ _ rc
      (if_state_keep (confirm_keep _ _ _ _ _ hm hself) hself)
  · unfold ppc_fsubs
    exact arith_final_facts s _ _ _ rc
      (if_state_keep (confirm_keep _ _ _ _ _ hm hself) hself)
  · unfold ppc_fdivs
    exact arith_final_facts s _ _ _ rc
      (if_state_keep (confirm_keep _ _ _ _ _ hm hself) hself)
  · unfold ppc_fmuls
    exact arith_final_facts s _ _ _ rc
      (if_state_keep (confirm_keep _ _ _ _ _ hm hself) hself)
  · unfold ppc_fmadds
    exact arith_final_facts s _ _ _ rc
      (if_state_keep
        (confirm_keep _ _ _ _ _ hm
          (if_state_keep (confirm_keep _ _ _ _ _ hm hself) hself))
        (if_state_keep (confirm_keep _ _ _ _ _ hm hself) hself))
  · unfold ppc_fmsubs
    exact arith_final_facts s _ _ _ rc
      (if_state_keep
        (confirm_keep _ _ _ _ _ hm
          (if_state_keep (confirm_keep _ _ _ _ _ hm hself) hself))
        (if_state_keep (confirm_keep _ _ _ _ _ hm hself) hself))
  · unfold ppc_fnmadds
    exact arith_final_facts s _ _ _ rc
      (if_state_keep
        (confirm_keep _ _ _ _ _ hm
          (if_state_keep (confirm_keep _ _ _ _ _ hm hself) hself))
        (if_state_keep (confirm_keep _ _ _ _ _ hm hself) hself))
  · unfold ppc_fnmsubs
    exact arith_final_facts s _ _ _ rc
      (if_state_keep
        (confirm_keep _ _ _ _ _ hm
          (if_state_keep (confirm_keep _ _ _ _ _ hm hself) hself))
        (if_state_keep (confirm_keep _ _ _ _ _ hm hself) hself))

/-- C4 counterexample: from a state whose FPSCR already holds a stale
FPCC_NEG (FL) bit, ppc_fadd of 1.0 + 1.0 — the host-addition parameter
returns the pattern of 2.0, exactly as the real addition would — sets
FG for the positive result, but the stale FL remains set, so two FPCC
condition bits end up set, refuting 'exactly the matching condition
bit is set'. -/
theorem fadd_keeps_stale_fpcc :
    (ppc_fadd (fun _ _ => 0x4000000000000000) 0x611000 false
        stStaleNeg).fpscr.testBit 15 = true ∧
    (ppc_fadd (fun _ _ => 0x4000000000000000) 0x611000 false
        stStaleNeg).fpscr.testBit 14 = true := by
  refine ⟨by decide, by decide⟩
